import Mathlib

set_option maxHeartbeats 1000000

namespace EnecaMcp

/-!
Shallow embedding of the eneca-mcp server's name-resolution and CRUD core
(src/build/services/database.js, src/build/tools/objects.js and the section
tools), together with proofs about the claims of the specification.
Strings are modelled as Lean strings (lists of characters); the Supabase
backing store is modelled as in-memory tables with the query combinators
(eq / neq / ilike / or / limit / single) evaluated as list operations.
-/

/-! ### JavaScript string primitives used by the service -/

def digitVal (c : Char) : Nat := c.toNat - '0'.toNat

/-- Embedding of JavaScript `String.prototype.trim`: drop leading and trailing
whitespace characters. -/
def trimChars (cs : List Char) : List Char :=
  ((cs.dropWhile Char.isWhitespace).reverse.dropWhile Char.isWhitespace).reverse

def jsTrim (s : String) : String := String.mk (trimChars s.data)

/-- Embedding of JavaScript `String.prototype.split`: cut at every character
satisfying the predicate (empty pieces are kept, as JS does for a
single-character separator). -/
def splitOnPred (p : Char → Bool) : List Char → List (List Char)
  | [] => [[]]
  | c :: rest =>
    if p c then [] :: splitOnPred p rest
    else
      match splitOnPred p rest with
      | [] => [[c]]
      | h :: t => (c :: h) :: t

def splitOnChar (sep : Char) (cs : List Char) : List (List Char) :=
  splitOnPred (fun c => c == sep) cs

/-- Embedding of JavaScript `split(/\s+/)` on an already trimmed string:
whitespace runs separate the words, so the empty pieces produced by
character-by-character splitting are dropped. -/
def splitWsWords (s : String) : List String :=
  ((splitOnPred Char.isWhitespace s.data).filter (fun w => !w.isEmpty)).map String.mk

/-- JS truthiness of an optional string (`undefined`, `null` and `""` are falsy). -/
def jsTruthyStr : Option String → Bool
  | none => false
  | some s => !(s == "")

/-- An optional string argument as the handlers see it behind `if (args.x)`:
`none` when absent or empty. -/
def jsOptStr (o : Option String) : Option String :=
  match o with
  | some s => if s == "" then none else some s
  | none => none

/-- JS `a || b` on strings. -/
def jsOrStr (a b : String) : String := if a == "" then b else a

/-- JS `a || b` on optional strings. -/
def jsOrOptStr (a b : Option String) : Option String :=
  if jsTruthyStr a then a else b

/-- Embedding of JavaScript `s.includes(c)` for a single character. -/
def containsChar (s : String) (c : Char) : Bool := s.data.contains c

/-! ### Postgres ILIKE evaluation

The store's `ilike` filter receives patterns built by the service.  `likeMatch`
evaluates a LIKE pattern (`%` any run, `_` any character, `\` escapes the next
character) against a text, character comparisons being case-insensitive
(ILIKE). -/

def charEqCI (a b : Char) : Bool := a.toLower == b.toLower

/-- Does `f` accept some suffix of the text (used for the `%` wildcard). -/
def suffixAny (f : List Char → Bool) : List Char → Bool
  | [] => f []
  | x :: t => f (x :: t) || suffixAny f t

def likeMatch : List Char → List Char → Bool
  | [], t => t.isEmpty
  | '%' :: p, t => suffixAny (likeMatch p) t
  | '_' :: p, t =>
    (match t with
     | [] => false
     | _ :: t' => likeMatch p t')
  | '\\' :: c :: p, t =>
    (match t with
     | [] => false
     | x :: t' => charEqCI x c && likeMatch p t')
  | c :: p, t =>
    (match t with
     | [] => false
     | x :: t' => charEqCI x c && likeMatch p t')

/-- The store's `field.ilike.pattern` filter: pattern against field value. -/
def ilikeStr (fieldVal pattern : String) : Bool :=
  likeMatch pattern.data fieldVal.data

/-- Is the character one of the LIKE metacharacters `%`, `_`, `\`. -/
def isLikeMeta (c : Char) : Bool := c == '%' || c == '_' || c == '\\'

/-- Embedding of the service's escaping `replace(/[%_\\]/g, '\\$&')`:
prefix every metacharacter with a backslash. -/
def escChars : List Char → List Char
  | [] => []
  | c :: rest => if isLikeMeta c then '\\' :: c :: escChars rest else c :: escChars rest

def escapeLike (s : String) : String := String.mk (escChars s.data)

/-- Case-insensitive "needle is a prefix of hay" on character lists. -/
def listPrefixCI : List Char → List Char → Bool
  | [], _ => true
  | _ :: _, [] => false
  | c :: p, x :: t => charEqCI x c && listPrefixCI p t

/-- Case-insensitive "needle occurs in hay" on character lists. -/
def listSubstrCI (needle : List Char) : List Char → Bool
  | [] => listPrefixCI needle []
  | x :: t => listPrefixCI needle (x :: t) || listSubstrCI needle t

/-- Case-insensitive substring test on strings. -/
def containsCI (hay needle : String) : Bool := listSubstrCI needle.data hay.data

/-! ### Dates -/

/-- Embedding of the regex character class `\d` (ASCII digits only, as in
JavaScript). -/
def isDigitCh (c : Char) : Bool :=
  c == '0' || c == '1' || c == '2' || c == '3' || c == '4' || c == '5' || c == '6' ||
    c == '7' || c == '8' || c == '9'

def monthLen (y m : Nat) : Nat :=
  if m = 2 then (if (y % 4 = 0 && !(y % 100 = 0)) || y % 400 = 0 then 29 else 28)
  else if m = 4 || m = 6 || m = 9 || m = 11 then 30 else 31

/-- Models JavaScript `new Date(s)` on a date-only ISO string `yyyy-mm-dd`
(the only shape the service ever feeds it): the calendar components, or `none`
(Invalid Date, NaN timestamp) when the shape or the calendar date is invalid. -/
def jsDateYmd (s : String) : Option (Nat × Nat × Nat) :=
  match s.data with
  | [y1, y2, y3, y4, h1, m1, m2, h2, d1, d2] =>
    if isDigitCh y1 && isDigitCh y2 && isDigitCh y3 && isDigitCh y4 && h1 == '-' &&
        isDigitCh m1 && isDigitCh m2 && h2 == '-' && isDigitCh d1 && isDigitCh d2 then
      let y := 1000 * digitVal y1 + 100 * digitVal y2 + 10 * digitVal y3 + digitVal y4
      let m := 10 * digitVal m1 + digitVal m2
      let d := 10 * digitVal d1 + digitVal d2
      if 1 ≤ m ∧ m ≤ 12 ∧ 1 ≤ d ∧ d ≤ monthLen y m then some (y, m, d) else none
    else none
  | _ => none

def ymdLe : Nat × Nat × Nat → Nat × Nat × Nat → Bool
  | (y1, m1, d1), (y2, m2, d2) =>
    if y1 < y2 then true
    else if y1 = y2 then
      (if m1 < m2 then true else if m1 = m2 then d1 ≤ d2 else false)
    else false

/-- From source (`database.js` `validateDateRange`): passes when either bound is
absent or empty, otherwise compares `new Date(start) <= new Date(end)`; an
invalid date yields NaN and the comparison is false. -/
def validateDateRange : Option String → Option String → Bool
  | some s, some e =>
    if s == "" || e == "" then true
    else
      match jsDateYmd s, jsDateYmd e with
      | some a, some b => ymdLe a b
      | _, _ => false
  | _, _ => true

/-- From source (`database.js` `parseDate`): accepts only `dd.mm.yyyy`
(regex `^\d{2}\.\d{2}\.\d{4}$` after trimming) with day 1-31, month 1-12,
year 1900-2100, and renders it as `yyyy-mm-dd` (the `padStart` calls of the
source are identities on the two-digit components the regex admits). -/
def parseDate (dateStr : String) : Option String :=
  let trimmed := trimChars dateStr.data
  match trimmed with
  | [d1, d2, p1, m1, m2, p2, y1, y2, y3, y4] =>
    if isDigitCh d1 && isDigitCh d2 && p1 == '.' && isDigitCh m1 && isDigitCh m2 && p2 == '.' &&
        isDigitCh y1 && isDigitCh y2 && isDigitCh y3 && isDigitCh y4 then
      let dayNum := 10 * digitVal d1 + digitVal d2
      let monthNum := 10 * digitVal m1 + digitVal m2
      let yearNum := 1000 * digitVal y1 + 100 * digitVal y2 + 10 * digitVal y3 + digitVal y4
      if dayNum < 1 ∨ 31 < dayNum ∨ monthNum < 1 ∨ 12 < monthNum ∨ yearNum < 1900 ∨ 2100 < yearNum then
        none
      else
        some (String.mk [y1, y2, y3, y4, '-', m1, m2, '-', d1, d2])
    else none
  | _ => none

/-- From source (`database.js` `formatDateForDisplay`): `yyyy-mm-dd` to
`dd.mm.yyyy` via `split('-')` destructuring (a missing component renders as
JavaScript `undefined`). -/
def formatDateForDisplay (dateStr : String) : String :=
  if dateStr == "" then ""
  else
    let parts := (splitOnChar '-' dateStr.data).map String.mk
    let year := parts.getD 0 "undefined"
    let month := parts.getD 1 "undefined"
    let day := parts.getD 2 "undefined"
    day ++ "." ++ month ++ "." ++ year

/-! ### Basic string lemmas -/

theorem stringDataInj (a b : String) (h : a.data = b.data) : a = b :=
  congrArg String.mk h

theorem stringAppendData (a b : String) : (a ++ b).data = a.data ++ b.data := rfl

theorem isDigitChCases {c : Char} (h : isDigitCh c = true) :
    c = '0' ∨ c = '1' ∨ c = '2' ∨ c = '3' ∨ c = '4' ∨ c = '5' ∨ c = '6' ∨ c = '7' ∨
      c = '8' ∨ c = '9' := by
  have h' := h
  simp only [isDigitCh, Bool.or_eq_true, beq_iff_eq] at h'
  tauto

theorem charDigitNotWs {c : Char} (h : isDigitCh c = true) : c.isWhitespace = false := by
  rcases isDigitChCases h with rfl | rfl | rfl | rfl | rfl | rfl | rfl | rfl | rfl | rfl <;>
    decide

theorem charDigitNeDash {c : Char} (h : isDigitCh c = true) : (c == '-') = false := by
  rcases isDigitChCases h with rfl | rfl | rfl | rfl | rfl | rfl | rfl | rfl | rfl | rfl <;>
    decide

theorem charDotNotWs : ('.' : Char).isWhitespace = false := by decide

theorem dropWhileEqSelf (p : Char → Bool) (l : List Char)
    (h : ∀ c ∈ l, p c = false) : l.dropWhile p = l := by
  cases l with
  | nil => rfl
  | cons a t =>
    rw [List.dropWhile_cons, if_neg]
    simp [h a (by simp)]

theorem trimCharsEqSelf (cs : List Char) (h : ∀ c ∈ cs, c.isWhitespace = false) :
    trimChars cs = cs := by
  unfold trimChars
  rw [dropWhileEqSelf _ _ h, dropWhileEqSelf, List.reverse_reverse]
  intro c hc
  exact h c (by simpa using hc)

/-- Validity predicate of claim C7 for a `dd.mm.yyyy` date string: two-digit
day 1-31, two-digit month 1-12, dot separators, four-digit year 1900-2100. -/
def isValidDdMmYyyy (s : String) : Bool :=
  match s.data with
  | [d1, d2, p1, m1, m2, p2, y1, y2, y3, y4] =>
    isDigitCh d1 && isDigitCh d2 && p1 == '.' && isDigitCh m1 && isDigitCh m2 && p2 == '.' &&
      isDigitCh y1 && isDigitCh y2 && isDigitCh y3 && isDigitCh y4 &&
      decide (1 ≤ 10 * digitVal d1 + digitVal d2) &&
      decide (10 * digitVal d1 + digitVal d2 ≤ 31) &&
      decide (1 ≤ 10 * digitVal m1 + digitVal m2) &&
      decide (10 * digitVal m1 + digitVal m2 ≤ 12) &&
      decide (1900 ≤ 1000 * digitVal y1 + 100 * digitVal y2 + 10 * digitVal y3 + digitVal y4) &&
      decide (1000 * digitVal y1 + 100 * digitVal y2 + 10 * digitVal y3 + digitVal y4 ≤ 2100)
  | _ => false

/-- Claim C7: for every valid date string in `dd.mm.yyyy` form (two-digit day
1-31, two-digit month 1-12, four-digit year 1900-2100), applying `parseDate`
and then `formatDateForDisplay` reproduces the original string exactly. -/
theorem parseDate_formatDateForDisplay_round_trip (s : String)
    (h : isValidDdMmYyyy s = true) :
    (parseDate s).map formatDateForDisplay = some s := by
  revert h
  unfold isValidDdMmYyyy
  split
  case h_2 => intro h; cases h
  case h_1 d1 d2 p1 m1 m2 p2 y1 y2 y3 y4 heq =>
    intro h
    simp only [Bool.and_eq_true, beq_iff_eq, decide_eq_true_eq] at h
    obtain ⟨⟨⟨⟨⟨⟨⟨⟨⟨⟨⟨⟨⟨⟨⟨hd1, hd2⟩, hp1⟩, hm1⟩, hm2⟩, hp2⟩, hy1⟩, hy2⟩, hy3⟩, hy4⟩,
      hdl⟩, hdu⟩, hml⟩, hmu⟩, hyl⟩, hyu⟩ := h
    subst hp1; subst hp2
    have hallchars : ∀ c ∈ s.data, c.isWhitespace = false := by
      rw [heq]
      intro c hc
      simp only [List.mem_cons, List.not_mem_nil, or_false] at hc
      rcases hc with rfl | rfl | rfl | rfl | rfl | rfl | rfl | rfl | rfl | rfl
      · exact charDigitNotWs hd1
      · exact charDigitNotWs hd2
      · exact charDotNotWs
      · exact charDigitNotWs hm1
      · exact charDigitNotWs hm2
      · exact charDotNotWs
      · exact charDigitNotWs hy1
      · exact charDigitNotWs hy2
      · exact charDigitNotWs hy3
      · exact charDigitNotWs hy4
    have htrim : trimChars s.data = s.data := trimCharsEqSelf _ hallchars
    unfold parseDate
    rw [htrim, heq]
    simp only [hd1, hd2, hm1, hm2, hy1, hy2, hy3, hy4, Bool.and_self, Bool.true_and,
      beq_self_eq_true, Bool.and_true]
    rw [if_pos trivial, if_neg (by omega)]
    simp only [Option.map_some']
    refine congrArg some ?_
    unfold formatDateForDisplay
    rw [if_neg ?emp]
    case emp =>
      intro hbeq
      have hne := congrArg String.data (eq_of_beq hbeq)
      simp at hne
    have hsplit : splitOnChar '-' (String.mk [y1, y2, y3, y4, '-', m1, m2, '-', d1, d2]).data =
        [[y1, y2, y3, y4], [m1, m2], [d1, d2]] := by
      show splitOnChar '-' [y1, y2, y3, y4, '-', m1, m2, '-', d1, d2] =
        [[y1, y2, y3, y4], [m1, m2], [d1, d2]]
      unfold splitOnChar
      simp only [splitOnPred, charDigitNeDash hy1, charDigitNeDash hy2, charDigitNeDash hy3,
        charDigitNeDash hy4, charDigitNeDash hm1, charDigitNeDash hm2, charDigitNeDash hd1,
        charDigitNeDash hd2, beq_self_eq_true, Bool.false_eq_true, if_false, if_true]
    rw [hsplit]
    simp only [List.map_cons, List.map_nil, List.getD_cons_zero, List.getD_cons_succ]
    apply stringDataInj
    rw [heq]
    simp only [stringAppendData]
    rfl

/-- Witness for claim C7 at a concrete valid input. -/
theorem parseDate_formatDateForDisplay_round_trip_witness :
    isValidDdMmYyyy "15.03.2024" = true ∧
      (parseDate "15.03.2024").map formatDateForDisplay = some "15.03.2024" :=
  ⟨by decide, parseDate_formatDateForDisplay_round_trip "15.03.2024" (by decide)⟩

/-! ### Correctness of escaping with respect to ILIKE evaluation -/

theorem suffixAnyIsEmpty (t : List Char) : suffixAny List.isEmpty t = true := by
  induction t with
  | nil => rfl
  | cons x t ih => simp [suffixAny, ih]

theorem suffixAnyCongr (f g : List Char → Bool) (h : ∀ t, f t = g t) (t : List Char) :
    suffixAny f t = suffixAny g t := by
  induction t with
  | nil => simp [suffixAny, h]
  | cons x t ih => simp [suffixAny, h, ih]

theorem suffixAnyPrefixCI (q t : List Char) :
    suffixAny (listPrefixCI q) t = listSubstrCI q t := by
  induction t with
  | nil => rfl
  | cons x t ih => simp [suffixAny, listSubstrCI, ih]

theorem likeMatchEscPct (q t : List Char) :
    likeMatch (escChars q ++ ['%']) t = listPrefixCI q t := by
  induction q generalizing t with
  | nil =>
    show likeMatch ('%' :: []) t = _
    rw [likeMatch.eq_2]
    rw [suffixAnyCongr _ _ (fun u => likeMatch.eq_1 u), suffixAnyIsEmpty]
    rfl
  | cons c q ih =>
    by_cases hm : isLikeMeta c = true
    · rw [escChars, if_pos hm]
      show likeMatch ('\\' :: c :: (escChars q ++ ['%'])) t = _
      cases t with
      | nil => rw [likeMatch.eq_5]; rfl
      | cons x t => rw [likeMatch.eq_6, ih]; rfl
    · have hm' : ¬(c = '%') ∧ ¬(c = '_') ∧ ¬(c = '\\') := by
        simp only [isLikeMeta, Bool.or_eq_true, beq_iff_eq] at hm
        tauto
      rw [escChars, if_neg hm]
      show likeMatch (c :: (escChars q ++ ['%'])) t = _
      cases t with
      | nil =>
        rw [likeMatch.eq_7 c _ (fun h => hm'.1 h) (fun h => hm'.2.1 h)
          (fun c1 p1 h _ => hm'.2.2 h)]
        rfl
      | cons x t =>
        rw [likeMatch.eq_8 c _ x t (fun h => hm'.1 h) (fun h => hm'.2.1 h)
          (fun c1 p1 h _ => hm'.2.2 h), ih]
        rfl

theorem likeMatchContains (q t : List Char) :
    likeMatch ('%' :: (escChars q ++ ['%'])) t = listSubstrCI q t := by
  rw [likeMatch.eq_2, suffixAnyCongr _ _ (likeMatchEscPct q), suffixAnyPrefixCI]

theorem ilikeEscapedContains (f q : String) :
    ilikeStr f ("%" ++ escapeLike q ++ "%") = containsCI f q := by
  unfold ilikeStr containsCI escapeLike
  have hdata : ("%" ++ String.mk (escChars q.data) ++ "%").data =
      '%' :: (escChars q.data ++ ['%']) := by
    rw [stringAppendData, stringAppendData]
    rfl
  rw [hdata, likeMatchContains]

/-! ### Data model

The backing store's tables, as rows with the column names of the schema.
Identifiers are opaque store-assigned values, modelled as naturals (`0` plays
the role of a falsy identifier, as the empty string would for a uuid). -/

structure ProjectRow where
  project_id : Nat
  project_name : String
  project_description : Option String := none
  project_manager : Option Nat := none
  project_lead_engineer : Option Nat := none
  project_status : String := "active"
  deriving Repr, DecidableEq, Inhabited

structure StageRow where
  stage_id : Nat
  stage_name : String
  stage_project_id : Nat
  deriving Repr, DecidableEq, Inhabited

structure ObjectRow where
  object_id : Nat
  object_name : String
  object_stage_id : Nat
  object_project_id : Nat
  object_responsible : Option Nat := none
  object_start_date : Option String := none
  object_end_date : Option String := none
  object_description : Option String := none
  object_created : Option String := none
  deriving Repr, DecidableEq, Inhabited

structure SectionRow where
  section_id : Nat
  section_name : String
  section_object_id : Nat
  section_project_id : Nat
  section_type : Option String := none
  section_responsible : Option Nat := none
  section_start_date : Option String := none
  section_end_date : Option String := none
  section_description : Option String := none
  section_created : Option String := none
  deriving Repr, DecidableEq, Inhabited

/-- A profile row; `view_users` is this table filtered by `is_active`. -/
structure UserRow where
  user_id : Nat
  first_name : String
  last_name : String
  full_name : String
  email : String
  is_active : Bool := true
  deriving Repr, DecidableEq, Inhabited

structure Store where
  projects : List ProjectRow := []
  stages : List StageRow := []
  objects : List ObjectRow := []
  sections : List SectionRow := []
  users : List UserRow := []
  deriving Repr, DecidableEq, Inhabited

/-! ### DatabaseService: validation and resolution (database.js) -/

/-- Result alphabet of the `validateUnique*ByName` resolvers in the source:
the string `'not_found'`, the string `'multiple_found'`, or the single row. -/
inductive FindResult (α : Type) where
  | not_found
  | multiple_found
  | found (record : α)
  deriving Repr, DecidableEq

/-- From source: zero rows (or a store error) is `'not_found'`, more than one
row is `'multiple_found'`, one row returns `data[0]`. -/
def classifyRows {α : Type} : List α → FindResult α
  | [] => .not_found
  | [r] => .found r
  | _ => .multiple_found

/-- Embedding of a `select().eq(pk, id).single()` existence check: `.single()`
errors unless the query returns exactly one row. -/
def validateProjectExists (db : Store) (projectId : Nat) : Bool :=
  (db.projects.filter (fun p => p.project_id == projectId)).length == 1

def validateStageExists (db : Store) (stageId : Nat) : Bool :=
  (db.stages.filter (fun s => s.stage_id == stageId)).length == 1

def validateObjectExists (db : Store) (objectId : Nat) : Bool :=
  (db.objects.filter (fun o => o.object_id == objectId)).length == 1

def validateSectionExists (db : Store) (sectionId : Nat) : Bool :=
  (db.sections.filter (fun s => s.section_id == sectionId)).length == 1

def validateUserExists (db : Store) (userId : Nat) : Bool :=
  (db.users.filter (fun u => u.user_id == userId)).length == 1

/-- From source (`validateUniqueProjectByName`): all projects with exactly this
name, classified. -/
def validateUniqueProjectByName (db : Store) (name : String) : FindResult ProjectRow :=
  classifyRows (db.projects.filter (fun p => p.project_name == name))

/-- From source (`validateUniqueStageByName`): stages with this name inside the
project, classified. -/
def validateUniqueStageByName (db : Store) (name : String) (projectId : Nat) :
    FindResult StageRow :=
  classifyRows (db.stages.filter
    (fun s => s.stage_name == name && s.stage_project_id == projectId))

/-- From source (`validateUniqueObjectByName`): objects with this name,
restricted to a stage only when `stageId` is passed. -/
def validateUniqueObjectByName (db : Store) (name : String) (stageId : Option Nat) :
    FindResult ObjectRow :=
  classifyRows (db.objects.filter (fun o =>
    o.object_name == name &&
      (match stageId with
       | some sid => o.object_stage_id == sid
       | none => true)))

/-- `.single()` on an arbitrary filter: the row when exactly one matches. -/
def singleRow {α : Type} : List α → Option α
  | [r] => some r
  | _ => none

/-- From source (`findProjectByNameExact`). -/
def findProjectByNameExact (db : Store) (name : String) : Option ProjectRow :=
  singleRow (db.projects.filter (fun p => p.project_name == jsTrim name))

/-- From source (`findStageByNameExact`). -/
def findStageByNameExact (db : Store) (name : String) (projectId : Nat) : Option StageRow :=
  singleRow (db.stages.filter
    (fun s => s.stage_name == jsTrim name && s.stage_project_id == projectId))

/-- From source (`findObjectByNameExact`): name and project filters, stage
filter only when passed. -/
def findObjectByNameExact (db : Store) (name : String) (projectId : Nat)
    (stageId : Option Nat) : Option ObjectRow :=
  singleRow (db.objects.filter (fun o =>
    o.object_name == jsTrim name && o.object_project_id == projectId &&
      (match stageId with
       | some sid => o.object_stage_id == sid
       | none => true)))

/-- From source (`findSectionByNameExact`). -/
def findSectionByNameExact (db : Store) (name : String) (projectId : Nat)
    (objectId : Option Nat) : Option SectionRow :=
  singleRow (db.sections.filter (fun s =>
    s.section_name == jsTrim name && s.section_project_id == projectId &&
      (match objectId with
       | some oid => s.section_object_id == oid
       | none => true)))

/-! ### Rename uniqueness checks (database.js, `validateUnique*ForUpdate`)

Each check runs one store query (`eq` on the trimmed name and the scope,
`neq` on the excluded id) and inspects its `{ data, error }` outcome.  The
query outcome is passed explicitly, so that the error case of the store is
expressible; the handlers below always pass `Except.ok` of the filtered rows. -/

def projectRenameRows (db : Store) (name : String) (excludeId : Nat) : List ProjectRow :=
  db.projects.filter (fun p => p.project_name == jsTrim name && !(p.project_id == excludeId))

def stageRenameRows (db : Store) (name : String) (projectId excludeId : Nat) : List StageRow :=
  db.stages.filter (fun s =>
    s.stage_name == jsTrim name && s.stage_project_id == projectId && !(s.stage_id == excludeId))

def objectRenameRows (db : Store) (name : String) (stageId excludeId : Nat) : List ObjectRow :=
  db.objects.filter (fun o =>
    o.object_name == jsTrim name && o.object_stage_id == stageId && !(o.object_id == excludeId))

def sectionRenameRows (db : Store) (name : String) (objectId excludeId : Nat) : List SectionRow :=
  db.sections.filter (fun s =>
    s.section_name == jsTrim name && s.section_object_id == objectId &&
      !(s.section_id == excludeId))

/-- From source (`validateUniqueProjectByNameForUpdate`): a store error reports
`'unique'`; otherwise `'duplicate'` exactly when a row survives the filters. -/
def validateUniqueProjectByNameForUpdate (queryOutcome : Except String (List ProjectRow)) :
    String :=
  match queryOutcome with
  | .error _ => "unique"
  | .ok data => if 0 < data.length then "duplicate" else "unique"

/-- From source (`validateUniqueStageByNameForUpdate`): same fail-open shape. -/
def validateUniqueStageByNameForUpdate (queryOutcome : Except String (List StageRow)) :
    String :=
  match queryOutcome with
  | .error _ => "unique"
  | .ok data => if 0 < data.length then "duplicate" else "unique"

/-- From source (`validateUniqueObjectByNameForUpdate`): same fail-open shape. -/
def validateUniqueObjectByNameForUpdate (queryOutcome : Except String (List ObjectRow)) :
    String :=
  match queryOutcome with
  | .error _ => "unique"
  | .ok data => if 0 < data.length then "duplicate" else "unique"

/-- From source (`validateUniqueSectionByNameForUpdate`): same fail-open shape. -/
def validateUniqueSectionByNameForUpdate (queryOutcome : Except String (List SectionRow)) :
    String :=
  match queryOutcome with
  | .error _ => "unique"
  | .ok data => if 0 < data.length then "duplicate" else "unique"

/-! ### Person search (database.js, `searchUsersByQuery`) -/

inductive UserField where
  | firstName
  | lastName
  | fullName
  | email
  deriving Repr, DecidableEq

def getUserField (u : UserRow) : UserField → String
  | .firstName => u.first_name
  | .lastName => u.last_name
  | .fullName => u.full_name
  | .email => u.email

/-- One disjunct of the PostgREST `or(...)` string built by the source: either
`field.ilike.%pat%` or `and(f1.ilike.%p1%,f2.ilike.%p2%)`; `pat` is stored as
interpolated (after escaping). -/
inductive SearchClause where
  | ilikeCl (f : UserField) (pat : String)
  | andPair (f1 : UserField) (p1 : String) (f2 : UserField) (p2 : String)
  deriving Repr, DecidableEq

def evalSearchClause (u : UserRow) : SearchClause → Bool
  | .ilikeCl f pat => ilikeStr (getUserField u f) ("%" ++ pat ++ "%")
  | .andPair f1 p1 f2 p2 =>
    ilikeStr (getUserField u f1) ("%" ++ p1 ++ "%") &&
      ilikeStr (getUserField u f2) ("%" ++ p2 ++ "%")

/-- From source (`searchUsersByQuery`): the `searchTerms` array — four
single-field clauses over the already escaped query, plus, when the query
contains a space (`includes(' ')`) and splits into at least two words, two
first-name/last-name pair clauses (each word escaped again). -/
def buildSearchTerms (cleanQuery : String) : List SearchClause :=
  let base := [SearchClause.ilikeCl .firstName cleanQuery,
    SearchClause.ilikeCl .lastName cleanQuery,
    SearchClause.ilikeCl .fullName cleanQuery,
    SearchClause.ilikeCl .email cleanQuery]
  if containsChar cleanQuery ' ' then
    let words := splitWsWords cleanQuery
    if 2 ≤ words.length then
      let firstName := escapeLike (words.getD 0 "")
      let lastName := escapeLike (words.getD 1 "")
      base ++ [SearchClause.andPair .firstName firstName .lastName lastName,
        SearchClause.andPair .firstName lastName .lastName firstName]
    else base
  else base

/-- From source (`searchUsersByQuery`): trim, escape, empty query returns all
active users (limit 50), queries longer than 50 characters after escaping are
rejected, otherwise the or-filter of `buildSearchTerms` runs over active
users with limit 50. -/
def searchUsersByQuery (db : Store) (query : String) : List UserRow :=
  let cleanQuery := escapeLike (jsTrim query)
  if cleanQuery == "" then
    (db.users.filter (fun u => u.is_active)).take 50
  else if 50 < cleanQuery.length then []
  else
    let terms := buildSearchTerms cleanQuery
    (db.users.filter (fun u => u.is_active && terms.any (evalSearchClause u))).take 50

/-! ### CRUD operations (database.js)

Results carry the `success` flag and user-facing `message` of the source (the
redundant `error` field of the source mirrors the message and is dropped). -/

structure OpResult (α : Type) where
  success : Bool
  message : String
  data : Option α := none
  deriving Repr, DecidableEq

/-- From source (`getCascadeDeleteInfo`): counts of sections, objects and
stages carrying the project's denormalized id, and their total. -/
structure CascadeInfo where
  sections : Nat
  objects : Nat
  stages : Nat
  total : Nat
  deriving Repr, DecidableEq

def getCascadeDeleteInfo (db : Store) (projectId : Nat) : CascadeInfo :=
  let sections := (db.sections.filter (fun s => s.section_project_id == projectId)).length
  let objects := (db.objects.filter (fun o => o.object_project_id == projectId)).length
  let stages := (db.stages.filter (fun s => s.stage_project_id == projectId)).length
  { sections := sections, objects := objects, stages := stages,
    total := sections + objects + stages }

/-- From source (`deleteProject`): reject when the project is missing; reject
with the dependent-record count when it has descendants and `cascade` is not
set; otherwise delete (descendants first when cascading). -/
def deleteProject (db : Store) (projectId : Nat) (cascade : Bool) :
    Store × OpResult CascadeInfo :=
  if !(validateProjectExists db projectId) then
    (db, { success := false, message := "Проект не найден" })
  else
    let cascadeInfo := getCascadeDeleteInfo db projectId
    if 0 < cascadeInfo.total ∧ cascade = false then
      (db, { success := false,
             message := "Нельзя удалить проект: найдены связанные данные (" ++
               toString cascadeInfo.total ++ " записей). Используйте каскадное удаление.",
             data := some cascadeInfo })
    else
      let db1 :=
        if cascade then
          { db with
            sections := db.sections.filter (fun s => !(s.section_project_id == projectId)),
            objects := db.objects.filter (fun o => !(o.object_project_id == projectId)),
            stages := db.stages.filter (fun s => !(s.stage_project_id == projectId)) }
        else db
      let db2 := { db1 with projects := db1.projects.filter (fun p => !(p.project_id == projectId)) }
      (db2, { success := true,
              message :=
                if cascade then
                  "Проект и все связанные данные (" ++ toString cascadeInfo.total ++
                    " записей) успешно удалены"
                else "Проект успешно удален",
              data := some cascadeInfo })

/-- Identifier assignment of the backing store on insert, modelled as a fresh
value above every existing id. -/
def freshObjectId (db : Store) : Nat :=
  (db.objects.map (fun o => o.object_id)).foldr max 0 + 1

def freshSectionId (db : Store) : Nat :=
  (db.sections.map (fun s => s.section_id)).foldr max 0 + 1

structure ObjectInput where
  object_name : String
  object_description : Option String := none
  object_stage_id : Nat
  object_project_id : Nat
  object_responsible : Option Nat := none
  object_start_date : Option String := none
  object_end_date : Option String := none
  deriving Repr, DecidableEq

/-- From source (`createObject`): validate the referenced project, stage and
(when given) responsible user, then insert and return the new row.  No name
uniqueness is checked here. -/
def createObject (db : Store) (input : ObjectInput) : Store × OpResult ObjectRow :=
  if !(validateProjectExists db input.object_project_id) then
    (db, { success := false, message := "Указанный проект не найден" })
  else if !(validateStageExists db input.object_stage_id) then
    (db, { success := false, message := "Указанная стадия не найдена" })
  else
    let row : ObjectRow :=
      { object_id := freshObjectId db,
        object_name := input.object_name,
        object_stage_id := input.object_stage_id,
        object_project_id := input.object_project_id,
        object_responsible := input.object_responsible,
        object_start_date := input.object_start_date,
        object_end_date := input.object_end_date,
        object_description := input.object_description }
    let inserted := ({ db with objects := db.objects ++ [row] },
      ({ success := true, message := "Объект успешно создан", data := some row } :
        OpResult ObjectRow))
    match input.object_responsible with
    | some r =>
      if !(validateUserExists db r) then
        (db, { success := false, message := "Указанный ответственный пользователь не найден" })
      else inserted
    | none => inserted

structure SectionInput where
  section_name : String
  section_description : Option String := none
  section_object_id : Nat
  section_project_id : Nat
  section_type : Option String := none
  section_responsible : Option Nat := none
  section_start_date : Option String := none
  section_end_date : Option String := none
  deriving Repr, DecidableEq

/-- From source (`createSection`): validate the referenced project, object and
(when given) responsible user, then insert and return the new row.  As in the
source, no check on the section's name is performed before inserting. -/
def createSection (db : Store) (input : SectionInput) : Store × OpResult SectionRow :=
  if !(validateProjectExists db input.section_project_id) then
    (db, { success := false, message := "Указанный проект не найден" })
  else if !(validateObjectExists db input.section_object_id) then
    (db, { success := false, message := "Указанный объект не найден" })
  else
    let row : SectionRow :=
      { section_id := freshSectionId db,
        section_name := input.section_name,
        section_object_id := input.section_object_id,
        section_project_id := input.section_project_id,
        section_type := input.section_type,
        section_responsible := input.section_responsible,
        section_start_date := input.section_start_date,
        section_end_date := input.section_end_date,
        section_description := input.section_description }
    let inserted := ({ db with sections := db.sections ++ [row] },
      ({ success := true, message := "Раздел успешно создан", data := some row } :
        OpResult SectionRow))
    match input.section_responsible with
    | some r =>
      if !(validateUserExists db r) then
        (db, { success := false, message := "Указанный ответственный пользователь не найден" })
      else inserted
    | none => inserted

/-! ### Updates -/

/-- The `updateData` object of `handleUpdateObject`: a field is updated only
when present.  `object_description` distinguishes "property set to a value"
(`some (some v)`) from "property set to `undefined`" (`some none`), which the
JSON payload omits, leaving the column untouched. -/
structure ObjectUpdate where
  object_id : Nat
  object_name : Option String := none
  object_description : Option (Option String) := none
  object_project_id : Option Nat := none
  object_stage_id : Option Nat := none
  object_responsible : Option Nat := none
  object_start_date : Option String := none
  object_end_date : Option String := none
  deriving Repr, DecidableEq

def applyObjectUpdate (u : ObjectUpdate) (o : ObjectRow) : ObjectRow :=
  { o with
    object_name := u.object_name.getD o.object_name,
    object_description :=
      match u.object_description with
      | some (some v) => some v
      | _ => o.object_description,
    object_project_id := u.object_project_id.getD o.object_project_id,
    object_stage_id := u.object_stage_id.getD o.object_stage_id,
    object_responsible :=
      match u.object_responsible with
      | some r => some r
      | none => o.object_responsible,
    object_start_date :=
      match u.object_start_date with
      | some d => some d
      | none => o.object_start_date,
    object_end_date :=
      match u.object_end_date with
      | some d => some d
      | none => o.object_end_date }

/-- From source (`updateObject`): validate existence and any referenced
project/stage/responsible, then update the row and return it. -/
def updateObject (db : Store) (input : ObjectUpdate) : Store × OpResult ObjectRow :=
  if !(validateObjectExists db input.object_id) then
    (db, { success := false, message := "Объект не найден" })
  else if (match input.object_project_id with
           | some pid => !(validateProjectExists db pid)
           | none => false) then
    (db, { success := false, message := "Указанный проект не найден" })
  else if (match input.object_stage_id with
           | some sid => !(validateStageExists db sid)
           | none => false) then
    (db, { success := false, message := "Указанная стадия не найдена" })
  else if (match input.object_responsible with
           | some r => !(validateUserExists db r)
           | none => false) then
    (db, { success := false, message := "Указанный ответственный пользователь не найден" })
  else
    match db.objects.filter (fun o => o.object_id == input.object_id) with
    | [o] =>
      ({ db with
          objects := db.objects.map (fun r =>
            if r.object_id == input.object_id then applyObjectUpdate input r else r) },
       { success := true, message := "Объект успешно обновлен",
         data := some (applyObjectUpdate input o) })
    | _ =>
      (db, { success := false, message := "Ошибка обновления объекта: PGRST116" })

/-- The `updateData` object of `handleUpdateSection`; `section_description` and
`section_type` behave like `object_description` above. -/
structure SectionUpdate where
  section_id : Nat
  section_name : Option String := none
  section_description : Option (Option String) := none
  section_project_id : Option Nat := none
  section_object_id : Option Nat := none
  section_responsible : Option Nat := none
  section_type : Option (Option String) := none
  section_start_date : Option String := none
  section_end_date : Option String := none
  deriving Repr, DecidableEq

def applySectionUpdate (u : SectionUpdate) (s : SectionRow) : SectionRow :=
  { s with
    section_name := u.section_name.getD s.section_name,
    section_description :=
      match u.section_description with
      | some (some v) => some v
      | _ => s.section_description,
    section_project_id := u.section_project_id.getD s.section_project_id,
    section_object_id := u.section_object_id.getD s.section_object_id,
    section_responsible :=
      match u.section_responsible with
      | some r => some r
      | none => s.section_responsible,
    section_type :=
      match u.section_type with
      | some (some v) => some v
      | _ => s.section_type,
    section_start_date :=
      match u.section_start_date with
      | some d => some d
      | none => s.section_start_date,
    section_end_date :=
      match u.section_end_date with
      | some d => some d
      | none => s.section_end_date }

/-- From source (`updateSection`): validate existence and any referenced
project/object/responsible, then update the row and return it. -/
def updateSection (db : Store) (input : SectionUpdate) : Store × OpResult SectionRow :=
  if !(validateSectionExists db input.section_id) then
    (db, { success := false, message := "Раздел не найден" })
  else if (match input.section_project_id with
           | some pid => !(validateProjectExists db pid)
           | none => false) then
    (db, { success := false, message := "Указанный проект не найден" })
  else if (match input.section_object_id with
           | some oid => !(validateObjectExists db oid)
           | none => false) then
    (db, { success := false, message := "Указанный объект не найден" })
  else if (match input.section_responsible with
           | some r => !(validateUserExists db r)
           | none => false) then
    (db, { success := false, message := "Указанный ответственный пользователь не найден" })
  else
    match db.sections.filter (fun s => s.section_id == input.section_id) with
    | [s] =>
      ({ db with
          sections := db.sections.map (fun r =>
            if r.section_id == input.section_id then applySectionUpdate input r else r) },
       { success := true, message := "Раздел успешно обновлен",
         data := some (applySectionUpdate input s) })
    | _ =>
      (db, { success := false, message := "Ошибка обновления раздела: PGRST116" })

/-! ### Reads used for display

The 1-hour read-through cache of the source is invisible to the evaluation of
one request on a fresh service instance (first read misses and queries the
store), so the getters are modelled as direct reads. -/

def getProject (db : Store) (projectId : Nat) : OpResult ProjectRow :=
  match singleRow (db.projects.filter (fun p => p.project_id == projectId)) with
  | some row => { success := true, message := "Проект найден", data := some row }
  | none => { success := false, message := "Проект не найден: PGRST116" }

def getStage (db : Store) (stageId : Nat) : OpResult StageRow :=
  match singleRow (db.stages.filter (fun s => s.stage_id == stageId)) with
  | some row => { success := true, message := "Стадия найдена", data := some row }
  | none => { success := false, message := "Стадия не найдена: PGRST116" }

def getObject (db : Store) (objectId : Nat) : OpResult ObjectRow :=
  match singleRow (db.objects.filter (fun o => o.object_id == objectId)) with
  | some row => { success := true, message := "Объект найден", data := some row }
  | none => { success := false, message := "Объект не найден: PGRST116" }

/-- From source (`getUser`): `view_users` by id, active only, or `null`. -/
def getUser (db : Store) (userId : Nat) : Option UserRow :=
  singleRow (db.users.filter (fun u => u.user_id == userId && u.is_active))

/-- From source (`searchObjectsByName`): ilike on the raw (unescaped) name,
optional stage filter, limit 10. -/
def searchObjectsByName (db : Store) (name : String) (stageId : Option Nat) :
    List ObjectRow :=
  (db.objects.filter (fun o =>
    ilikeStr o.object_name ("%" ++ name ++ "%") &&
      (match stageId with
       | some sid => o.object_stage_id == sid
       | none => true))).take 10

structure ListObjectsFilters where
  project_id : Option Nat := none
  stage_id : Option Nat := none
  responsible : Option Nat := none
  limit : Option Nat := none
  offset : Option Nat := none
  deriving Repr, DecidableEq

/-- JS `a || b` for an optional number (`0` is falsy). -/
def jsOrNat (a : Option Nat) (b : Nat) : Nat :=
  match a with
  | some n => if n == 0 then b else n
  | none => b

/-- From source (`listObjects`): eq filters, then `limit(n)` when `filters.limit`
is truthy, then `range(offset, offset + (limit || 10) - 1)` when
`filters.offset` is truthy (the range window overrides the previous limit). -/
def listObjects (db : Store) (filters : ListObjectsFilters) : OpResult (List ObjectRow) :=
  let rows := db.objects.filter (fun o =>
    (match filters.project_id with
     | some v => o.object_project_id == v
     | none => true) &&
    (match filters.stage_id with
     | some v => o.object_stage_id == v
     | none => true) &&
    (match filters.responsible with
     | some v => o.object_responsible == some v
     | none => true))
  let rows1 :=
    match filters.limit with
    | some l => if l > 0 then rows.take l else rows
    | none => rows
  let rows2 :=
    match filters.offset with
    | some off => if off > 0 then (rows.drop off).take (jsOrNat filters.limit 10) else rows1
    | none => rows1
  { success := true, message := "Найдено объектов: " ++ toString rows2.length,
    data := some rows2 }

/-! ### Display helpers shared by the handlers -/

/-- `u.full_name?.trim() || ${u.first_name} ${u.last_name}.trim()`. -/
def userDisplayName (u : UserRow) : String :=
  jsOrStr (jsTrim u.full_name) (jsTrim (u.first_name ++ " " ++ u.last_name))

/-- The bulleted user list of objects.js (`• name (email)` with the trimmed
full-name fallback), joined with newlines. -/
def usersListTrimmed (users : List UserRow) : String :=
  String.intercalate "\n" (users.map (fun u => "• " ++ userDisplayName u ++ " (" ++ u.email ++ ")"))

/-- The bulleted user list of the create-section handler (`• ${u.full_name}
(${u.email})`, no fallback), joined with newlines. -/
def usersListPlain (users : List UserRow) : String :=
  String.intercalate "\n" (users.map (fun u => "• " ++ u.full_name ++ " (" ++ u.email ++ ")"))

/-- The shared date-argument step of the handlers: absent or empty argument
passes through, otherwise `parseDate` must succeed (the section handlers trim
the argument first, which `parseDate` does anyway).  The error message quotes
the raw argument. -/
def parseOptDate (label : String) (arg : Option String) : Except String (Option String) :=
  match jsOptStr arg with
  | none => Except.ok none
  | some s =>
    match parseDate s with
    | some d => Except.ok (some d)
    | none =>
      Except.error ("Неверный формат даты " ++ label ++ ": \"" ++ s ++
        "\". Используйте формат дд.мм.гггг")

/-- Models Node's default `new Date(iso).toLocaleDateString()` (en-US) on the
date-only ISO strings the store holds. -/
def jsLocaleDate (s : String) : String :=
  match jsDateYmd s with
  | some (y, m, d) => toString m ++ "/" ++ toString d ++ "/" ++ toString y
  | none => "Invalid Date"

/-! ### handleCreateObject (objects.js) -/

structure CreateObjectArgs where
  object_name : String
  object_description : Option String := none
  stage_name : String
  project_name : String
  responsible_name : Option String := none
  start_date : Option String := none
  end_date : Option String := none
  deriving Repr, DecidableEq

/-- Tail of `handleCreateObject`: build the insert payload and run
`createObject`, rendering the result message. -/
def createObjectFinish (db : Store) (args : CreateObjectArgs) (objectName : String)
    (project : ProjectRow) (stage : StageRow) (sd ed : Option String)
    (resp : Option Nat) : Store × String :=
  let input : ObjectInput :=
    { object_name := objectName,
      object_description := jsOptStr args.object_description,
      object_stage_id := stage.stage_id,
      object_project_id := project.project_id,
      object_responsible := resp,
      object_start_date := sd,
      object_end_date := ed }
  let r := createObject db input
  (r.1,
    if r.2.success then
      r.2.message ++ "\nОбъект \"" ++ objectName ++ "\" успешно создан в стадии \"" ++
        stage.stage_name ++ "\" проекта \"" ++ project.project_name ++ "\""
    else r.2.message)

/-- From source (`handleCreateObject`): resolve project, stage within project,
check object-name uniqueness within the stage, validate dates and range,
resolve the responsible person, insert. -/
def handleCreateObject (db : Store) (args : CreateObjectArgs) : Store × String :=
  let objectName := jsTrim args.object_name
  let stageName := jsTrim args.stage_name
  let projectName := jsTrim args.project_name
  match validateUniqueProjectByName db projectName with
  | .not_found => (db, "Проект с названием \"" ++ projectName ++ "\" не найден")
  | .multiple_found =>
    (db, "Найдено несколько проектов с названием \"" ++ projectName ++
      "\". Уточните название или используйте поиск проектов.")
  | .found project =>
    match validateUniqueStageByName db stageName project.project_id with
    | .not_found =>
      (db, "Стадия с названием \"" ++ stageName ++ "\" не найдена в проекте \"" ++
        project.project_name ++ "\"")
    | .multiple_found =>
      (db, "В проекте \"" ++ project.project_name ++
        "\" найдено несколько стадий с названием \"" ++ stageName ++ "\". Уточните название.")
    | .found stage =>
      match validateUniqueObjectByName db objectName (some stage.stage_id) with
      | .multiple_found =>
        (db, "В стадии \"" ++ stage.stage_name ++
          "\" существует несколько объектов с названием \"" ++ objectName ++
          "\". Выберите другое название.")
      | .found _ =>
        (db, "В стадии \"" ++ stage.stage_name ++ "\" уже существует объект с названием \"" ++
          objectName ++ "\". Выберите другое название.")
      | .not_found =>
        match parseOptDate "начала" args.start_date with
        | .error msg => (db, msg)
        | .ok sd =>
          match parseOptDate "окончания" args.end_date with
          | .error msg => (db, msg)
          | .ok ed =>
            if !(validateDateRange (jsOrOptStr sd none) (jsOrOptStr ed none)) then
              (db, "Дата начала не может быть больше даты окончания")
            else
              match jsOptStr args.responsible_name with
              | some rn =>
                match searchUsersByQuery db (jsTrim rn) with
                | [] => (db, "Пользователь с именем \"" ++ rn ++ "\" не найден")
                | [u] => createObjectFinish db args objectName project stage sd ed (some u.user_id)
                | users =>
                  (db, "Найдено несколько пользователей с именем \"" ++ rn ++ "\":\n" ++
                    usersListTrimmed users ++ "\nУточните имя или используйте email.")
              | none => createObjectFinish db args objectName project stage sd ed none

/-! ### handleCreateSection (section tools) -/

structure CreateSectionArgs where
  section_name : String
  section_description : Option String := none
  object_name : String
  section_type : Option String := none
  responsible_name : Option String := none
  start_date : Option String := none
  end_date : Option String := none
  deriving Repr, DecidableEq

/-- Tail of `handleCreateSection`: build the insert payload and run
`createSection`, rendering the result message. -/
def createSectionFinish (db : Store) (args : CreateSectionArgs) (sectionName : String)
    (objectEntity : ObjectRow) (sd ed : Option String) (resp : Option Nat) : Store × String :=
  let input : SectionInput :=
    { section_name := sectionName,
      section_description := (jsOptStr args.section_description).map jsTrim,
      section_object_id := objectEntity.object_id,
      section_project_id := objectEntity.object_project_id,
      section_type := (jsOptStr args.section_type).map jsTrim,
      section_responsible := resp,
      section_start_date := sd,
      section_end_date := ed }
  let r := createSection db input
  (r.1,
    if r.2.success then
      r.2.message ++ "\nРаздел \"" ++ sectionName ++ "\" успешно создан в объекте \"" ++
        objectEntity.object_name ++ "\""
    else r.2.message)

/-- From source (`handleCreateSection`): resolve the object by name with no
project or stage scope (`validateUniqueObjectByName` without a stage id),
validate dates and range, resolve the responsible person, insert.  No
uniqueness check on the section name is performed anywhere on this path. -/
def handleCreateSection (db : Store) (args : CreateSectionArgs) : Store × String :=
  let sectionName := jsTrim args.section_name
  let objectName := jsTrim args.object_name
  match validateUniqueObjectByName db objectName none with
  | .not_found => (db, "Объект с названием \"" ++ objectName ++ "\" не найден")
  | .multiple_found =>
    (db, "Найдено несколько объектов с названием \"" ++ objectName ++
      "\". Уточните название или используйте поиск объектов.")
  | .found objectEntity =>
    match parseOptDate "начала" args.start_date with
    | .error msg => (db, msg)
    | .ok sd =>
      match parseOptDate "окончания" args.end_date with
      | .error msg => (db, msg)
      | .ok ed =>
        if !(validateDateRange (jsOrOptStr sd none) (jsOrOptStr ed none)) then
          (db, "Дата начала не может быть больше даты окончания")
        else
          match jsOptStr args.responsible_name with
          | some rn =>
            match searchUsersByQuery db (jsTrim rn) with
            | [] => (db, "Пользователь с именем \"" ++ rn ++ "\" не найден")
            | [u] => createSectionFinish db args sectionName objectEntity sd ed (some u.user_id)
            | users =>
              (db, "Найдено несколько пользователей с именем \"" ++ rn ++ "\":\n" ++
                usersListPlain users ++ "\nУточните имя или используйте email.")
          | none => createSectionFinish db args sectionName objectEntity sd ed none

/-! ### handleSearchObjects (objects.js)

The source is one function with early returns; it is split here into one
definition per stage, in source order. -/

structure SearchObjectsArgs where
  object_name : Option String := none
  stage_name : Option String := none
  project_name : Option String := none
  responsible_name : Option String := none
  limit : Option Nat := none
  offset : Option Nat := none
  deriving Repr, DecidableEq

/-- One numbered entry of the search-objects output, with the project, stage
and responsible names resolved for display. -/
def objectEntryText (db : Store) (index : Nat) (obj : ObjectRow) : String :=
  let projectName :=
    if obj.object_project_id == 0 then "Неизвестно"
    else
      let r := getProject db obj.object_project_id
      match r.success, r.data with
      | true, some p => p.project_name
      | _, _ => "Неизвестно"
  let stageName :=
    if obj.object_stage_id == 0 then "Неизвестно"
    else
      let r := getStage db obj.object_stage_id
      match r.success, r.data with
      | true, some s => s.stage_name
      | _, _ => "Неизвестно"
  let responsibleName :=
    match obj.object_responsible with
    | some rid =>
      (match getUser db rid with
       | some u => userDisplayName u
       | none => "Не назначен")
    | none => "Не назначен"
  let t := toString (index + 1) ++ ". **" ++ obj.object_name ++ "**\n"
  let t := t ++ "   Проект: " ++ projectName ++ "\n"
  let t := t ++ "   Стадия: " ++ stageName ++ "\n"
  let t := t ++ "   Создан: " ++
    (match jsOptStr obj.object_created with
     | some c => jsLocaleDate c
     | none => "Неизвестно") ++ "\n"
  let t := t ++ "   Ответственный: " ++ responsibleName ++ "\n"
  let t := t ++
    (match jsOptStr obj.object_start_date with
     | some dt => "   Начало: " ++ jsLocaleDate dt ++ "\n"
     | none => "")
  let t := t ++
    (match jsOptStr obj.object_end_date with
     | some dt => "   Окончание: " ++ jsLocaleDate dt ++ "\n"
     | none => "")
  t ++
    (match jsOptStr obj.object_description with
     | some ds => "   Описание: " ++ ds ++ "\n"
     | none => "")

/-- Render stage of `handleSearchObjects`: empty-result message, entries, and
the heuristic has-more footer (`objects.length === limit`). -/
def searchObjectsRender (db : Store) (args : SearchObjectsArgs)
    (objects : List ObjectRow) : String :=
  if objects.length == 0 then "Объекты не найдены по указанным критериям"
  else
    let objectsText := String.intercalate "\n"
      ((objects.enum).map (fun pr => objectEntryText db pr.1 pr.2))
    let limit := jsOrNat args.limit 10
    let offset := jsOrNat args.offset 0
    let hasMore := objects.length == limit
    let r0 := "Найдено объектов: " ++ toString objects.length
    let r1 := if hasMore then r0 ++ " (показано " ++ toString limit ++ ", есть еще)" else r0
    let r2 := if 0 < offset then r1 ++ " (смещение: " ++ toString offset ++ ")" else r1
    let r3 := r2 ++ "\n\n" ++ objectsText
    if hasMore then
      r3 ++ "\n\n💡 Для получения следующих результатов используйте параметр offset: " ++
        toString (offset + limit)
    else r3

/-- Responsible-filter stage of `handleSearchObjects`. -/
def handleSearchObjectsFilterResp (db : Store) (args : SearchObjectsArgs)
    (objects : List ObjectRow) : String :=
  match jsOptStr args.responsible_name with
  | some rn =>
    match searchUsersByQuery db (jsTrim rn) with
    | [] => "Пользователь с именем \"" ++ rn ++ "\" не найден"
    | [u] =>
      searchObjectsRender db args
        (objects.filter (fun o => o.object_responsible == some u.user_id))
    | users =>
      "Найдено несколько пользователей с именем \"" ++ rn ++ "\":\n" ++
        usersListTrimmed users ++ "\nУточните имя."
  | none => searchObjectsRender db args objects

/-- Selection stage of `handleSearchObjects`: by object name (ilike, with a
client-side project filter when no stage was resolved), else by stage, else by
project, else the usage message. -/
def handleSearchObjectsSelect (db : Store) (args : SearchObjectsArgs)
    (projectId stageId : Option Nat) : String :=
  match jsOptStr args.object_name with
  | some objArg =>
    let objects := searchObjectsByName db (jsTrim objArg) stageId
    let objects :=
      match projectId, stageId with
      | some pid, none => objects.filter (fun o => o.object_project_id == pid)
      | _, _ => objects
    handleSearchObjectsFilterResp db args objects
  | none =>
    match stageId with
    | some sid =>
      let r := listObjects db
        { stage_id := some sid, limit := some (jsOrNat args.limit 10),
          offset := some (jsOrNat args.offset 0) }
      if !r.success then r.message
      else handleSearchObjectsFilterResp db args (r.data.getD [])
    | none =>
      match projectId with
      | some pid =>
        let r := listObjects db
          { project_id := some pid, limit := some (jsOrNat args.limit 10),
            offset := some (jsOrNat args.offset 0) }
        if !r.success then r.message
        else handleSearchObjectsFilterResp db args (r.data.getD [])
      | none => "Укажите название объекта, стадии или проекта для поиска"

/-- Stage-resolution stage of `handleSearchObjects` (requires a resolved
project). -/
def handleSearchObjectsWithProject (db : Store) (args : SearchObjectsArgs)
    (projectId : Option Nat) : String :=
  match jsOptStr args.stage_name with
  | some sn =>
    match projectId with
    | none => "Для поиска по стадии укажите также название проекта"
    | some pid =>
      match validateUniqueStageByName db (jsTrim sn) pid with
      | .not_found => "Стадия с названием \"" ++ sn ++ "\" не найдена в указанном проекте"
      | .multiple_found =>
        "В проекте найдено несколько стадий с названием \"" ++ sn ++ "\". Уточните название."
      | .found stage => handleSearchObjectsSelect db args projectId (some stage.stage_id)
  | none => handleSearchObjectsSelect db args projectId none

/-- From source (`handleSearchObjects`): the project reference, when present,
is resolved first; its failure aborts the request before the stage reference
is considered. -/
def handleSearchObjects (db : Store) (args : SearchObjectsArgs) : String :=
  match jsOptStr args.project_name with
  | some pn =>
    match validateUniqueProjectByName db (jsTrim pn) with
    | .not_found => "Проект с названием \"" ++ pn ++ "\" не найден"
    | .multiple_found =>
      "Найдено несколько проектов с названием \"" ++ pn ++ "\". Уточните название."
    | .found project => handleSearchObjectsWithProject db args (some project.project_id)
  | none => handleSearchObjectsWithProject db args none

/-! ### handleUpdateObject (objects.js)

One definition per stage of the source function, in source order:
name → description → new stage → responsible → dates → update. -/

structure UpdateObjectArgs where
  current_name : String
  project_name : String
  stage_name : Option String := none
  new_name : Option String := none
  description : Option String := none
  new_stage_name : Option String := none
  responsible_name : Option String := none
  start_date : Option String := none
  end_date : Option String := none
  deriving Repr, DecidableEq

/-- The `changes` list rendered after a successful object update (each line is
pushed only when the corresponding `updateData` field is set and truthy; the
description line requires the property to be set to a defined value). -/
def objectUpdateChanges (currentName : String) (upd : ObjectUpdate) : List String :=
  (match upd.object_name with
   | some n => if n == "" then [] else ["Название: \"" ++ currentName ++ "\" → \"" ++ n ++ "\""]
   | none => []) ++
  (match upd.object_description with
   | some (some _) => ["Описание: обновлено"]
   | _ => []) ++
  (match upd.object_stage_id with
   | some sid => if sid == 0 then [] else ["Стадия: изменена"]
   | none => []) ++
  (match upd.object_responsible with
   | some r => if r == 0 then [] else ["Ответственный: обновлен"]
   | none => []) ++
  (match upd.object_start_date with
   | some dt => if dt == "" then [] else ["Дата начала: " ++ formatDateForDisplay dt]
   | none => []) ++
  (match upd.object_end_date with
   | some dt => if dt == "" then [] else ["Дата окончания: " ++ formatDateForDisplay dt]
   | none => [])

/-- Dates-and-update stage of `handleUpdateObject`: parse the supplied dates,
check the range on the effective pair (new value if present, else the stored
one, `|| null`), then run `updateObject`. -/
def huoDates (db : Store) (args : UpdateObjectArgs) (currentName projectName : String)
    (object : ObjectRow) (upd : ObjectUpdate) : Store × String :=
  match parseOptDate "начала" args.start_date with
  | .error msg => (db, msg)
  | .ok sd =>
    match parseOptDate "окончания" args.end_date with
    | .error msg => (db, msg)
    | .ok ed =>
      let upd := { upd with object_start_date := sd, object_end_date := ed }
      let finalStartDate := jsOrOptStr upd.object_start_date object.object_start_date
      let finalEndDate := jsOrOptStr upd.object_end_date object.object_end_date
      if !(validateDateRange (jsOrOptStr finalStartDate none) (jsOrOptStr finalEndDate none)) then
        (db, "Дата начала не может быть больше даты окончания")
      else
        let r := updateObject db upd
        if !r.2.success then (r.1, "Ошибка обновления объекта: " ++ r.2.message)
        else
          (r.1, "Объект \"" ++ currentName ++ "\" в проекте \"" ++ projectName ++
            "\" успешно обновлен\n\nИзменения:\n" ++
            String.intercalate "\n" (objectUpdateChanges currentName upd))

/-- Responsible stage of `handleUpdateObject`. -/
def huoResp (db : Store) (args : UpdateObjectArgs) (currentName projectName : String)
    (object : ObjectRow) (upd : ObjectUpdate) : Store × String :=
  match jsOptStr args.responsible_name with
  | some rn =>
    match searchUsersByQuery db (jsTrim rn) with
    | [] => (db, "Пользователь с именем \"" ++ rn ++ "\" не найден")
    | [u] =>
      huoDates db args currentName projectName object
        { upd with object_responsible := some u.user_id }
    | users =>
      (db, "Найдено несколько пользователей с именем \"" ++ rn ++ "\":\n" ++
        usersListTrimmed users ++ "\nУточните имя.")
  | none => huoDates db args currentName projectName object upd

/-- New-stage stage of `handleUpdateObject`. -/
def huoNewStage (db : Store) (args : UpdateObjectArgs) (currentName projectName : String)
    (project : ProjectRow) (object : ObjectRow) (upd : ObjectUpdate) : Store × String :=
  match jsOptStr args.new_stage_name with
  | some nsn =>
    match findStageByNameExact db (jsTrim nsn) project.project_id with
    | none =>
      (db, "Стадия с названием \"" ++ nsn ++ "\" не найдена в проекте \"" ++
        projectName ++ "\"")
    | some newStage =>
      huoResp db args currentName projectName object
        { upd with object_stage_id := some newStage.stage_id }
  | none => huoResp db args currentName projectName object upd

/-- Description stage of `handleUpdateObject` (`String(args.description).trim()
|| undefined`). -/
def huoDescription (db : Store) (args : UpdateObjectArgs) (currentName projectName : String)
    (project : ProjectRow) (object : ObjectRow) (upd : ObjectUpdate) : Store × String :=
  let upd :=
    match args.description with
    | some dsc =>
      { upd with
          object_description := some (if jsTrim dsc == "" then none else some (jsTrim dsc)) }
    | none => upd
  huoNewStage db args currentName projectName project object upd

/-- New-name stage of `handleUpdateObject`: a rename to the current name skips
the uniqueness check and sets nothing; a different name runs
`validateUniqueObjectByNameForUpdate` scoped to the object's stage. -/
def huoName (db : Store) (args : UpdateObjectArgs) (currentName projectName : String)
    (project : ProjectRow) (object : ObjectRow) : Store × String :=
  let upd0 : ObjectUpdate := { object_id := object.object_id }
  match jsOptStr args.new_name with
  | some nn =>
    let newName := jsTrim nn
    if newName == currentName then
      huoDescription db args currentName projectName project object upd0
    else if validateUniqueObjectByNameForUpdate
        (Except.ok (objectRenameRows db newName object.object_stage_id object.object_id)) ==
        "duplicate" then
      (db, "Объект с названием \"" ++ newName ++ "\" уже существует в данной стадии")
    else
      huoDescription db args currentName projectName project object
        { upd0 with object_name := some newName }
  | none => huoDescription db args currentName projectName project object upd0

/-- From source (`handleUpdateObject`): exact project lookup, optional exact
stage lookup for a narrower object search, exact object lookup, then the
update stages. -/
def handleUpdateObject (db : Store) (args : UpdateObjectArgs) : Store × String :=
  let currentName := jsTrim args.current_name
  let projectName := jsTrim args.project_name
  match findProjectByNameExact db projectName with
  | none => (db, "Проект с названием \"" ++ projectName ++ "\" не найден")
  | some project =>
    match jsOptStr args.stage_name with
    | some sn =>
      match findStageByNameExact db (jsTrim sn) project.project_id with
      | none =>
        (db, "Стадия с названием \"" ++ sn ++ "\" не найдена в проекте \"" ++
          projectName ++ "\"")
      | some stage =>
        match findObjectByNameExact db currentName project.project_id (some stage.stage_id) with
        | none =>
          (db, "Объект с названием \"" ++ currentName ++ "\" не найден в проекте \"" ++
            projectName ++ "\"")
        | some object => huoName db args currentName projectName project object
    | none =>
      match findObjectByNameExact db currentName project.project_id none with
      | none =>
        (db, "Объект с названием \"" ++ currentName ++ "\" не найден в проекте \"" ++
          projectName ++ "\"")
      | some object => huoName db args currentName projectName project object

/-! ### handleUpdateSection (section tools)

Stages in source order: name → description → responsible → type → dates. -/

structure UpdateSectionArgs where
  current_name : String
  project_name : String
  object_name : Option String := none
  new_name : Option String := none
  description : Option String := none
  responsible_name : Option String := none
  type : Option String := none
  start_date : Option String := none
  end_date : Option String := none
  deriving Repr, DecidableEq

/-- The `changes` list rendered after a successful section update. -/
def sectionUpdateChanges (currentName : String) (upd : SectionUpdate) : List String :=
  (match upd.section_name with
   | some n => if n == "" then [] else ["Название: \"" ++ currentName ++ "\" → \"" ++ n ++ "\""]
   | none => []) ++
  (match upd.section_description with
   | some (some _) => ["Описание: обновлено"]
   | _ => []) ++
  (match upd.section_responsible with
   | some r => if r == 0 then [] else ["Ответственный: обновлен"]
   | none => []) ++
  (match upd.section_type with
   | some (some v) => ["Тип: " ++ v]
   | _ => []) ++
  (match upd.section_start_date with
   | some dt => if dt == "" then [] else ["Дата начала: " ++ formatDateForDisplay dt]
   | none => []) ++
  (match upd.section_end_date with
   | some dt => if dt == "" then [] else ["Дата окончания: " ++ formatDateForDisplay dt]
   | none => [])

/-- Dates-and-update stage of `handleUpdateSection`: the range check uses the
effective dates (new value if present, else the stored one, `|| null`). -/
def husDates (db : Store) (args : UpdateSectionArgs) (currentName projectName : String)
    (sect : SectionRow) (upd : SectionUpdate) : Store × String :=
  match parseOptDate "начала" args.start_date with
  | .error msg => (db, msg)
  | .ok sd =>
    match parseOptDate "окончания" args.end_date with
    | .error msg => (db, msg)
    | .ok ed =>
      let upd := { upd with section_start_date := sd, section_end_date := ed }
      let finalStartDate := jsOrOptStr upd.section_start_date sect.section_start_date
      let finalEndDate := jsOrOptStr upd.section_end_date sect.section_end_date
      if !(validateDateRange (jsOrOptStr finalStartDate none) (jsOrOptStr finalEndDate none)) then
        (db, "Дата начала не может быть больше даты окончания")
      else
        let r := updateSection db upd
        if !r.2.success then (r.1, "Ошибка обновления раздела: " ++ r.2.message)
        else
          (r.1, "Раздел \"" ++ currentName ++ "\" в проекте \"" ++ projectName ++
            "\" успешно обновлен\n\nИзменения:\n" ++
            String.intercalate "\n" (sectionUpdateChanges currentName upd))

/-- Type stage of `handleUpdateSection` (`String(args.type).trim() ||
undefined`, applied when the argument is present). -/
def husType (db : Store) (args : UpdateSectionArgs) (currentName projectName : String)
    (sect : SectionRow) (upd : SectionUpdate) : Store × String :=
  let upd :=
    match args.type with
    | some tv =>
      { upd with
          section_type := some (if jsTrim tv == "" then none else some (jsTrim tv)) }
    | none => upd
  husDates db args currentName projectName sect upd

/-- Responsible stage of `handleUpdateSection`. -/
def husResp (db : Store) (args : UpdateSectionArgs) (currentName projectName : String)
    (sect : SectionRow) (upd : SectionUpdate) : Store × String :=
  match jsOptStr args.responsible_name with
  | some rn =>
    match searchUsersByQuery db (jsTrim rn) with
    | [] => (db, "Пользователь с именем \"" ++ rn ++ "\" не найден")
    | [u] =>
      husType db args currentName projectName sect
        { upd with section_responsible := some u.user_id }
    | users =>
      (db, "Найдено несколько пользователей с именем \"" ++ rn ++ "\":\n" ++
        usersListTrimmed users ++ "\nУточните имя.")
  | none => husType db args currentName projectName sect upd

/-- Description stage of `handleUpdateSection`. -/
def husDescription (db : Store) (args : UpdateSectionArgs) (currentName projectName : String)
    (sect : SectionRow) (upd : SectionUpdate) : Store × String :=
  let upd :=
    match args.description with
    | some dsc =>
      { upd with
          section_description := some (if jsTrim dsc == "" then none else some (jsTrim dsc)) }
    | none => upd
  husResp db args currentName projectName sect upd

/-- New-name stage of `handleUpdateSection`: a rename to the current name skips
the uniqueness check; a different name runs
`validateUniqueSectionByNameForUpdate` scoped to the section's object. -/
def husName (db : Store) (args : UpdateSectionArgs) (currentName projectName : String)
    (sect : SectionRow) : Store × String :=
  let upd0 : SectionUpdate := { section_id := sect.section_id }
  match jsOptStr args.new_name with
  | some nn =>
    let newName := jsTrim nn
    if newName == currentName then
      husDescription db args currentName projectName sect upd0
    else if validateUniqueSectionByNameForUpdate
        (Except.ok (sectionRenameRows db newName sect.section_object_id sect.section_id)) ==
        "duplicate" then
      (db, "Раздел с названием \"" ++ newName ++ "\" уже существует в данном объекте")
    else
      husDescription db args currentName projectName sect
        { upd0 with section_name := some newName }
  | none => husDescription db args currentName projectName sect upd0

/-- From source (`handleUpdateSection`): exact project lookup, optional exact
object lookup for a narrower section search, exact section lookup, then the
update stages. -/
def handleUpdateSection (db : Store) (args : UpdateSectionArgs) : Store × String :=
  let currentName := jsTrim args.current_name
  let projectName := jsTrim args.project_name
  match findProjectByNameExact db projectName with
  | none => (db, "Проект с названием \"" ++ projectName ++ "\" не найден")
  | some project =>
    match jsOptStr args.object_name with
    | some onm =>
      match findObjectByNameExact db (jsTrim onm) project.project_id none with
      | none =>
        (db, "Объект с названием \"" ++ onm ++ "\" не найден в проекте \"" ++
          projectName ++ "\"")
      | some object =>
        match findSectionByNameExact db currentName project.project_id (some object.object_id) with
        | none =>
          (db, "Раздел с названием \"" ++ currentName ++ "\" не найден в проекте \"" ++
            projectName ++ "\"")
        | some sect => husName db args currentName projectName sect
    | none =>
      match findSectionByNameExact db currentName project.project_id none with
      | none =>
        (db, "Раздел с названием \"" ++ currentName ++ "\" не найден в проекте \"" ++
          projectName ++ "\"")
      | some sect => husName db args currentName projectName sect

/-! ### Specification-side definitions (for refinement comparisons)

`specPersonMatch` follows claim C5's words: four single-field case-insensitive
substring clauses ORed, and — when the query contains whitespace
(`useAnyWhitespace = true`; the space-only reading uses `' '`) and splits into
at least two words — two first-name/last-name pair clauses in both orders.
The activity restriction and the trimming, which the claim does not mention,
follow the code. -/

def specPersonMatch (useAnyWhitespace : Bool) (query : String) (u : UserRow) : Bool :=
  let trimmed := jsTrim query
  let escaped := escapeLike trimmed
  let singles := containsCI u.first_name trimmed || containsCI u.last_name trimmed ||
    containsCI u.full_name trimmed || containsCI u.email trimmed
  let wsTrigger :=
    if useAnyWhitespace then escaped.data.any Char.isWhitespace
    else containsChar escaped ' '
  let words := splitWsWords escaped
  if wsTrigger && decide (2 ≤ words.length) then
    singles ||
      (containsCI u.first_name (words.getD 0 "") && containsCI u.last_name (words.getD 1 "")) ||
      (containsCI u.first_name (words.getD 1 "") && containsCI u.last_name (words.getD 0 ""))
  else singles

/-- The person search as claim C5 describes it: reject when the escaped query
exceeds 50 characters, otherwise filter by the OR of the clauses, capped at
50 records. -/
def specPersonSearch (useAnyWhitespace : Bool) (db : Store) (query : String) :
    List UserRow :=
  if 50 < (escapeLike (jsTrim query)).length then []
  else (db.users.filter (fun u => u.is_active && specPersonMatch useAnyWhitespace query u)).take 50

/-! ### Concrete fixtures for witnesses and counterexamples -/

def emptyStore : Store := {}

def projectP : ProjectRow := { project_id := 1, project_name := "P" }

def stageS : StageRow := { stage_id := 10, stage_name := "S", stage_project_id := 1 }

def stageS2 : StageRow := { stage_id := 11, stage_name := "S2", stage_project_id := 1 }

def objectO : ObjectRow :=
  { object_id := 20, object_name := "O", object_stage_id := 10, object_project_id := 1 }

def sectionN : SectionRow :=
  { section_id := 30, section_name := "N", section_object_id := 20, section_project_id := 1 }

/-- One project with one stage, one object and one section named "N". -/
def storePSON : Store :=
  { projects := [projectP], stages := [stageS], objects := [objectO], sections := [sectionN] }

def argsSecN : CreateSectionArgs := { section_name := "N", object_name := "O" }

def objectDup1 : ObjectRow :=
  { object_id := 21, object_name := "D", object_stage_id := 10, object_project_id := 1 }

def objectDup2 : ObjectRow :=
  { object_id := 22, object_name := "D", object_stage_id := 11, object_project_id := 1 }

/-- Two objects named "D" in two different stages of the same project (the
name is unique within each stage). -/
def storeDupObjects : Store :=
  { projects := [projectP], stages := [stageS, stageS2], objects := [objectDup1, objectDup2] }

def argsSecD : CreateSectionArgs := { section_name := "N", object_name := "D" }

def argsCreateObjPS : CreateObjectArgs :=
  { object_name := "O", stage_name := "S", project_name := "P" }

def argsSearchObjPS : SearchObjectsArgs :=
  { project_name := some "P", stage_name := some "S" }

/-! ### Claim C10 -/

/-- Claim C10: all four rename uniqueness checks fail open — whenever the
backing-store query inside `validateUniqueProjectByNameForUpdate`,
`validateUniqueStageByNameForUpdate`, `validateUniqueObjectByNameForUpdate` or
`validateUniqueSectionByNameForUpdate` returns an error, the check reports
"unique" (so the rename proceeds: the handlers abort only on "duplicate"),
and the failing read is never surfaced. -/
theorem renameChecks_fail_open :
    (∀ e : String, validateUniqueProjectByNameForUpdate (Except.error e) = "unique") ∧
    (∀ e : String, validateUniqueStageByNameForUpdate (Except.error e) = "unique") ∧
    (∀ e : String, validateUniqueObjectByNameForUpdate (Except.error e) = "unique") ∧
    (∀ e : String, validateUniqueSectionByNameForUpdate (Except.error e) = "unique") :=
  ⟨fun _ => rfl, fun _ => rfl, fun _ => rfl, fun _ => rfl⟩

/-! ### Claim C3 -/

/-- Claim C3: for every store and project with N > 0 descendant records
(sections + objects + stages), `deleteProject` with `cascade = false` rejects
with a message citing exactly N and leaves the store unchanged. -/
theorem deleteProject_cascade_false_rejects (db : Store) (pid : Nat)
    (hex : validateProjectExists db pid = true)
    (hN : 0 < (getCascadeDeleteInfo db pid).total) :
    deleteProject db pid false =
      (db, { success := false,
             message := "Нельзя удалить проект: найдены связанные данные (" ++
               toString (getCascadeDeleteInfo db pid).total ++
               " записей). Используйте каскадное удаление.",
             data := some (getCascadeDeleteInfo db pid) }) := by
  simp only [deleteProject, hex, Bool.not_true, Bool.false_eq_true, if_false]
  rw [if_pos ⟨hN, trivial⟩]

/-- Witness for claim C3: a project with 3 descendant records (one stage, one
object, one section). -/
theorem deleteProject_cascade_false_rejects_witness :
    validateProjectExists storePSON 1 = true ∧
    0 < (getCascadeDeleteInfo storePSON 1).total ∧
    deleteProject storePSON 1 false =
      (storePSON,
        { success := false,
          message := "Нельзя удалить проект: найдены связанные данные (" ++
            toString (getCascadeDeleteInfo storePSON 1).total ++
            " записей). Используйте каскадное удаление.",
          data := some (getCascadeDeleteInfo storePSON 1) }) :=
  ⟨by decide, by decide,
    deleteProject_cascade_false_rejects storePSON 1 (by decide) (by decide)⟩

/-! ### Claim C9 -/

theorem twoMemLengthTwo {α : Type} (l : List α) (a b : α) (ha : a ∈ l) (hb : b ∈ l)
    (hne : a ≠ b) : 2 ≤ l.length := by
  cases l with
  | nil => cases ha
  | cons x t =>
    cases t with
    | nil =>
      simp only [List.mem_singleton] at ha hb
      exact absurd (ha.trans hb.symm) hne
    | cons y u => simp [List.length_cons]

theorem classifyRowsMultiple {α : Type} (l : List α) (h : 2 ≤ l.length) :
    classifyRows l = FindResult.multiple_found := by
  cases l with
  | nil => simp at h
  | cons x t =>
    cases t with
    | nil => simp at h
    | cons y u => rfl

/-- Claim C9: `handleCreateSection` resolves its object reference with no
project or stage scope filter — whenever two objects with the requested name
exist in different stages, the request aborts with the multiple-matches
message and the store is unchanged, even though the name is unambiguous
within every stage. -/
theorem createSection_object_resolution_unscoped (db : Store) (args : CreateSectionArgs)
    (o1 o2 : ObjectRow) (h1 : o1 ∈ db.objects) (h2 : o2 ∈ db.objects)
    (hn1 : (o1.object_name == jsTrim args.object_name) = true)
    (hn2 : (o2.object_name == jsTrim args.object_name) = true)
    (hst : o1.object_stage_id ≠ o2.object_stage_id) :
    handleCreateSection db args =
      (db, "Найдено несколько объектов с названием \"" ++ jsTrim args.object_name ++
        "\". Уточните название или используйте поиск объектов.") := by
  have hne : o1 ≠ o2 := fun he => hst (congrArg ObjectRow.object_stage_id he)
  have hm1 : o1 ∈ db.objects.filter (fun o =>
      o.object_name == jsTrim args.object_name &&
        (match (none : Option Nat) with
         | some sid => o.object_stage_id == sid
         | none => true)) := by
    rw [List.mem_filter]
    exact ⟨h1, by simp [hn1]⟩
  have hm2 : o2 ∈ db.objects.filter (fun o =>
      o.object_name == jsTrim args.object_name &&
        (match (none : Option Nat) with
         | some sid => o.object_stage_id == sid
         | none => true)) := by
    rw [List.mem_filter]
    exact ⟨h2, by simp [hn2]⟩
  have hmul : validateUniqueObjectByName db (jsTrim args.object_name) none =
      FindResult.multiple_found := by
    unfold validateUniqueObjectByName
    exact classifyRowsMultiple _ (twoMemLengthTwo _ o1 o2 hm1 hm2 hne)
  simp only [handleCreateSection]
  rw [hmul]

/-- Witness for claim C9: two objects named "D" in different stages. -/
theorem createSection_object_resolution_unscoped_witness :
    handleCreateSection storeDupObjects argsSecD =
      (storeDupObjects,
        "Найдено несколько объектов с названием \"D\". Уточните название или используйте поиск объектов.") :=
  createSection_object_resolution_unscoped storeDupObjects argsSecD objectDup1 objectDup2
    (by decide) (by decide) (by decide) (by decide) (by decide)

/-! ### Claim C4 -/

/-- Claim C4: resolution proceeds in dependency order and the first failure is
the one reported — for every request (create-object or search-objects) whose
project reference does not resolve, the returned message concerns the project,
for every stage argument and every content of the stages table (the stage
reference is never evaluated). -/
theorem dependency_order_project_first :
    (∀ (db : Store) (args : CreateObjectArgs),
      validateUniqueProjectByName db (jsTrim args.project_name) = FindResult.not_found →
      handleCreateObject db args =
        (db, "Проект с названием \"" ++ jsTrim args.project_name ++ "\" не найден")) ∧
    (∀ (db : Store) (args : SearchObjectsArgs) (pn : String),
      jsOptStr args.project_name = some pn →
      validateUniqueProjectByName db (jsTrim pn) = FindResult.not_found →
      handleSearchObjects db args = "Проект с названием \"" ++ pn ++ "\" не найден") := by
  constructor
  · intro db args h
    simp only [handleCreateObject]
    rw [h]
  · intro db args pn hopt h
    simp only [handleSearchObjects]
    rw [hopt]
    simp only [h]

/-- Witness for claim C4: a store with no projects, a request naming both a
project "P" and a stage "S" that do not exist; the message concerns "P". -/
theorem dependency_order_project_first_witness :
    handleCreateObject emptyStore argsCreateObjPS =
      (emptyStore, "Проект с названием \"P\" не найден") ∧
    handleSearchObjects emptyStore argsSearchObjPS = "Проект с названием \"P\" не найден" :=
  ⟨dependency_order_project_first.1 emptyStore argsCreateObjPS (by decide),
   dependency_order_project_first.2 emptyStore argsSearchObjPS "P" (by decide) (by decide)⟩

/-! ### Claim C1 -/

/-- Claim C1 (code bug): `handleCreateSection`/`createSection` perform no
section-name uniqueness check.  On a store that already holds a section "N" in
object "O" (id 20), a create-section request for the same name and object
succeeds and inserts a second section "N" into the same object, instead of
failing with a Conflict. -/
theorem createSection_inserts_duplicate_name :
    ((storePSON.sections.filter (fun s =>
        s.section_name == "N" && s.section_object_id == 20)).length = 1) ∧
    (handleCreateSection storePSON argsSecN).2 =
      "Раздел успешно создан\nРаздел \"N\" успешно создан в объекте \"O\"" ∧
    (((handleCreateSection storePSON argsSecN).1.sections.filter (fun s =>
        s.section_name == "N" && s.section_object_id == 20)).length = 2) := by
  decide

/-! ### Claim C2 -/

def projPa : ProjectRow :=
  { project_id := 1, project_name := "P", project_description := some "first" }

def projPb : ProjectRow :=
  { project_id := 2, project_name := "P", project_description := some "second" }

def projPc : ProjectRow :=
  { project_id := 3, project_name := "P", project_description := some "third" }

def storeTwoP : Store := { projects := [projPa, projPb] }

def storeTwoPalt : Store := { projects := [projPa, projPc] }

def userAnn1 : UserRow :=
  { user_id := 100, first_name := "Анна", last_name := "Иванова",
    full_name := "Анна Иванова", email := "anna1@eneca.by" }

def userAnn2 : UserRow :=
  { user_id := 101, first_name := "Анна", last_name := "Петрова",
    full_name := "Анна Петрова", email := "anna2@eneca.by" }

def storeTwoAnna : Store :=
  { projects := [projectP], stages := [stageS], users := [userAnn1, userAnn2] }

def argsCreateObjResp : CreateObjectArgs :=
  { object_name := "O", stage_name := "S", project_name := "P",
    responsible_name := some "Анна" }

/-- Counterexample to claim C2: with two projects named "P", the create-object
request aborts with a fixed template that carries no display field of either
candidate — two stores whose candidates differ in every distinguishing field
produce the identical message, so the message cannot enumerate the candidate
list. -/
theorem ambiguous_project_message_lacks_candidates :
    handleCreateObject storeTwoP argsCreateObjPS =
      (storeTwoP,
        "Найдено несколько проектов с названием \"P\". Уточните название или используйте поиск проектов.") ∧
    (handleCreateObject storeTwoPalt argsCreateObjPS).2 =
      (handleCreateObject storeTwoP argsCreateObjPS).2 := by
  decide

/-- Claim C2 as amended: a multi-match free-text reference always aborts the
operation; for a person (responsible) reference the message enumerates each
candidate's display name and email, while for a project (likewise stage and
object) reference the message only states that multiple matches exist,
quoting the searched name, without enumerating candidates. -/
theorem ambiguous_reference_abort_and_message :
    (∀ (db : Store) (args : CreateObjectArgs),
      validateUniqueProjectByName db (jsTrim args.project_name) = FindResult.multiple_found →
      handleCreateObject db args =
        (db, "Найдено несколько проектов с названием \"" ++ jsTrim args.project_name ++
          "\". Уточните название или используйте поиск проектов.")) ∧
    (∀ (db : Store) (args : CreateObjectArgs) (project : ProjectRow) (stage : StageRow)
      (rn : String) (u1 u2 : UserRow) (rest : List UserRow),
      validateUniqueProjectByName db (jsTrim args.project_name) = FindResult.found project →
      validateUniqueStageByName db (jsTrim args.stage_name) project.project_id =
        FindResult.found stage →
      validateUniqueObjectByName db (jsTrim args.object_name) (some stage.stage_id) =
        FindResult.not_found →
      jsOptStr args.start_date = none →
      jsOptStr args.end_date = none →
      jsOptStr args.responsible_name = some rn →
      searchUsersByQuery db (jsTrim rn) = u1 :: u2 :: rest →
      handleCreateObject db args =
        (db, "Найдено несколько пользователей с именем \"" ++ rn ++ "\":\n" ++
          usersListTrimmed (u1 :: u2 :: rest) ++ "\nУточните имя или используйте email.")) := by
  constructor
  · intro db args h
    simp only [handleCreateObject]
    rw [h]
  · intro db args project stage rn u1 u2 rest hp hs ho hsd hed hrn hu
    have hsd' : parseOptDate "начала" args.start_date = Except.ok none := by
      unfold parseOptDate
      rw [hsd]
    have hed' : parseOptDate "окончания" args.end_date = Except.ok none := by
      unfold parseOptDate
      rw [hed]
    simp only [handleCreateObject, hp, hs, ho, hsd', hed', hrn, hu, jsOrOptStr, jsTruthyStr,
      validateDateRange, Bool.not_true, Bool.false_eq_true, if_false]

/-- Witness for claim C2 (as amended): the project multi-match aborts with the
bare template, and a responsible multi-match enumerates both candidates. -/
theorem ambiguous_reference_abort_and_message_witness :
    handleCreateObject storeTwoP argsCreateObjPS =
      (storeTwoP,
        "Найдено несколько проектов с названием \"P\". Уточните название или используйте поиск проектов.") ∧
    handleCreateObject storeTwoAnna argsCreateObjResp =
      (storeTwoAnna, "Найдено несколько пользователей с именем \"Анна\":\n" ++
        usersListTrimmed [userAnn1, userAnn2] ++ "\nУточните имя или используйте email.") :=
  ⟨ambiguous_reference_abort_and_message.1 storeTwoP argsCreateObjPS (by decide),
   ambiguous_reference_abort_and_message.2 storeTwoAnna argsCreateObjResp projectP stageS
     "Анна" userAnn1 userAnn2 [] (by decide) (by decide) (by decide) (by decide) (by decide)
     (by decide) (by decide)⟩

/-! ### Claim C5 -/

def userAB : UserRow :=
  { user_id := 1, first_name := "a", last_name := "b", full_name := "x", email := "y" }

def storeUserAB : Store := { users := [userAB] }

/-- Counterexample to claim C5 as stated: the query `"a\tb"` contains
whitespace (a tab), so by the claim the two first-name/last-name pair clauses
must be ORed in — which would match the user (first name "a", last name "b").
The code however tests `includes(' ')` (a space specifically), builds only the
four single-field clauses, and returns no user. -/
theorem searchUsers_whitespace_trigger_counterexample :
    searchUsersByQuery storeUserAB "a\tb" = [] ∧
    specPersonSearch true storeUserAB "a\tb" = [userAB] ∧
    searchUsersByQuery storeUserAB "a\tb" ≠ specPersonSearch true storeUserAB "a\tb" := by
  decide

theorem escCharsEqNil {l : List Char} (h : escChars l = []) : l = [] := by
  cases l with
  | nil => rfl
  | cons c rest =>
    rw [escChars] at h
    split at h <;> cases h

theorem containsCIEmptyNeedle (f : String) : containsCI f "" = true := by
  unfold containsCI
  show listSubstrCI [] f.data = true
  induction f.data with
  | nil => rfl
  | cons x t ih => simp [listSubstrCI, listPrefixCI, ih]

theorem evalIlikeClause (u : UserRow) (fld : UserField) (t : String) :
    evalSearchClause u (SearchClause.ilikeCl fld (escapeLike t)) =
      containsCI (getUserField u fld) t := by
  simp only [evalSearchClause]
  rw [ilikeEscapedContains]

theorem evalAndPairClause (u : UserRow) (f1 f2 : UserField) (w1 w2 : String) :
    evalSearchClause u (SearchClause.andPair f1 (escapeLike w1) f2 (escapeLike w2)) =
      (containsCI (getUserField u f1) w1 && containsCI (getUserField u f2) w2) := by
  simp only [evalSearchClause]
  rw [ilikeEscapedContains, ilikeEscapedContains]

theorem buildSearchTermsEval (q : String) (u : UserRow) :
    (buildSearchTerms (escapeLike (jsTrim q))).any (evalSearchClause u) =
      specPersonMatch false q u := by
  unfold buildSearchTerms specPersonMatch
  by_cases hsp : containsChar (escapeLike (jsTrim q)) ' ' = true
  · by_cases hw : 2 ≤ (splitWsWords (escapeLike (jsTrim q))).length
    · rw [if_pos hsp, if_pos hw]
      simp [List.any_append, List.any_cons, List.any_nil, evalIlikeClause, evalAndPairClause,
        Bool.or_assoc, getUserField, hsp, hw]
    · rw [if_pos hsp, if_neg hw]
      simp [List.any_cons, List.any_nil, evalIlikeClause, Bool.or_assoc, getUserField, hsp, hw]
  · have hsp' : containsChar (escapeLike (jsTrim q)) ' ' = false := by simpa using hsp
    rw [hsp']
    simp [List.any_cons, List.any_nil, evalIlikeClause, Bool.or_assoc, getUserField, hsp']

/-- Claim C5 as amended: the person search escapes metacharacters before
interpolation, rejects escaped queries longer than 50 characters, otherwise
ORs the four single-field case-insensitive substring clauses — plus, when the
query contains a space character (U+0020; other whitespace such as a tab does
not trigger them) and splits into at least two words, the two
first-name/last-name pair clauses in both orders — and caps the result list at
50 records: it equals the specification-side search with the space reading. -/
theorem searchUsers_matches_spec_space (db : Store) (q : String) :
    searchUsersByQuery db q = specPersonSearch false db q := by
  simp only [searchUsersByQuery, specPersonSearch]
  by_cases hq : (escapeLike (jsTrim q) == "") = true
  · have hqe : escapeLike (jsTrim q) = "" := by simpa using hq
    have htr : jsTrim q = "" := by
      have h2 : escChars (jsTrim q).data = [] := congrArg String.data hqe
      exact stringDataInj _ _ (escCharsEqNil h2)
    rw [hq, if_pos rfl]
    rw [if_neg (show ¬(50 < (escapeLike (jsTrim q)).length) by rw [hqe]; simp)]
    refine congrArg (List.take 50) (List.filter_congr ?_)
    intro u hu
    have hm : specPersonMatch false q u = true := by
      unfold specPersonMatch
      have hws : containsChar (escapeLike "") ' ' = false := by decide
      rw [htr]
      simp [containsCIEmptyNeedle, hws]
    rw [hm, Bool.and_true]
  · have hq' : (escapeLike (jsTrim q) == "") = false := by simpa using hq
    rw [hq']
    simp only [Bool.false_eq_true, if_false]
    by_cases hlen : 50 < (escapeLike (jsTrim q)).length
    · rw [if_pos hlen, if_pos hlen]
    · rw [if_neg hlen, if_neg hlen]
      refine congrArg (List.take 50) (List.filter_congr ?_)
      intro u hu
      rw [buildSearchTermsEval]

/-! ### Claim C8: string-inequality machinery

Two handler messages are distinguished by a character at a fixed index inside
their leading literal, or by the final character of their trailing literal. -/

theorem stringNeOfIdx (a b : String) (i : Nat) (ca cb : Char)
    (ha : a.data[i]? = some ca) (hb : b.data[i]? = some cb) (hne : ca ≠ cb) : a ≠ b := by
  intro h
  rw [h] at ha
  rw [ha] at hb
  exact hne (Option.some.inj hb)

theorem stringNeOfLast (a b : String) (ca cb : Char)
    (ha : a.data.getLast? = some ca) (hb : b.data.getLast? = some cb) (hne : ca ≠ cb) :
    a ≠ b := by
  intro h
  rw [h] at ha
  rw [ha] at hb
  exact hne (Option.some.inj hb)

theorem strIdxAppendL (a b : String) (i : Nat) (c : Char) (h : a.data[i]? = some c) :
    (a ++ b).data[i]? = some c := by
  have hlt : i < a.data.length := (List.getElem?_eq_some.mp h).1
  rw [stringAppendData, List.getElem?_append, if_pos hlt]
  exact h

theorem strLastAppendR (a b : String) (c : Char) (h : b.data.getLast? = some c) :
    (a ++ b).data.getLast? = some c := by
  rw [stringAppendData, List.getLast?_append, h]
  rfl

theorem objConflictIdx (n : String) (i : Nat) (c : Char)
    (h : ("Объект с названием \"" : String).data[i]? = some c) :
    ("Объект с названием \"" ++ n ++ "\" уже существует в данной стадии").data[i]? = some c :=
  strIdxAppendL _ _ _ _ (strIdxAppendL _ _ _ _ h)

theorem objConflictLast (n : String) :
    ("Объект с названием \"" ++ n ++ "\" уже существует в данной стадии").data.getLast? =
      some 'и' :=
  strLastAppendR _ _ _ (by decide)

theorem secConflictIdx (n : String) (i : Nat) (c : Char)
    (h : ("Раздел с названием \"" : String).data[i]? = some c) :
    ("Раздел с названием \"" ++ n ++ "\" уже существует в данном объекте").data[i]? = some c :=
  strIdxAppendL _ _ _ _ (strIdxAppendL _ _ _ _ h)

theorem secConflictLast (n : String) :
    ("Раздел с названием \"" ++ n ++ "\" уже существует в данном объекте").data.getLast? =
      some 'е' :=
  strLastAppendR _ _ _ (by decide)

theorem parseOptDateErrMsg (lbl : String) (a : Option String) (m : String)
    (h : parseOptDate lbl a = Except.error m) :
    ∃ s, m = "Неверный формат даты " ++ lbl ++ ": \"" ++ s ++
      "\". Используйте формат дд.мм.гггг" := by
  unfold parseOptDate at h
  cases hopt : jsOptStr a with
  | none => rw [hopt] at h; cases h
  | some s =>
    rw [hopt] at h
    dsimp only at h
    cases hp : parseDate s with
    | none =>
      rw [hp] at h
      dsimp only at h
      injection h with h'
      exact ⟨s, h'.symm⟩
    | some d => rw [hp] at h; cases h

/-! No stage of the object-update chain after the rename block can produce the
rename-conflict message, whatever its arguments. -/

theorem huoDatesNoConflict (db : Store) (args : UpdateObjectArgs) (cn pn : String)
    (o : ObjectRow) (upd : ObjectUpdate) (n : String) :
    (huoDates db args cn pn o upd).2 ≠
      "Объект с названием \"" ++ n ++ "\" уже существует в данной стадии" := by
  dsimp only [huoDates]
  cases hps : parseOptDate "начала" args.start_date with
  | error m =>
    dsimp only
    obtain ⟨s, rfl⟩ := parseOptDateErrMsg _ _ _ hps
    exact stringNeOfIdx _ _ 0 'Н' 'О'
      (strIdxAppendL _ _ _ _ (strIdxAppendL _ _ _ _ (strIdxAppendL _ _ _ _
        (strIdxAppendL _ _ _ _ (by decide)))))
      (objConflictIdx n 0 'О' (by decide)) (by decide)
  | ok sd =>
    dsimp only
    cases hpe : parseOptDate "окончания" args.end_date with
    | error m =>
      dsimp only
      obtain ⟨s, rfl⟩ := parseOptDateErrMsg _ _ _ hpe
      exact stringNeOfIdx _ _ 0 'Н' 'О'
        (strIdxAppendL _ _ _ _ (strIdxAppendL _ _ _ _ (strIdxAppendL _ _ _ _
          (strIdxAppendL _ _ _ _ (by decide)))))
        (objConflictIdx n 0 'О' (by decide)) (by decide)
    | ok ed =>
      dsimp only
      split
      · dsimp only
        exact stringNeOfIdx _ _ 0 'Д' 'О' (by decide) (objConflictIdx n 0 'О' (by decide))
          (by decide)
      · split
        · dsimp only
          exact stringNeOfIdx _ _ 1 'ш' 'б' (strIdxAppendL _ _ _ _ (by decide))
            (objConflictIdx n 1 'б' (by decide)) (by decide)
        · dsimp only
          exact stringNeOfIdx _ _ 7 '"' 'с'
            (strIdxAppendL _ _ _ _ (strIdxAppendL _ _ _ _ (strIdxAppendL _ _ _ _
              (strIdxAppendL _ _ _ _ (strIdxAppendL _ _ _ _ (by decide))))))
            (objConflictIdx n 7 'с' (by decide)) (by decide)

theorem huoRespNoConflict (db : Store) (args : UpdateObjectArgs) (cn pn : String)
    (o : ObjectRow) (upd : ObjectUpdate) (n : String) :
    (huoResp db args cn pn o upd).2 ≠
      "Объект с названием \"" ++ n ++ "\" уже существует в данной стадии" := by
  dsimp only [huoResp]
  cases hrn : jsOptStr args.responsible_name with
  | none => dsimp only; exact huoDatesNoConflict db args cn pn o upd n
  | some rn =>
    dsimp only
    cases hus : searchUsersByQuery db (jsTrim rn) with
    | nil =>
      dsimp only
      exact stringNeOfIdx _ _ 0 'П' 'О'
        (strIdxAppendL _ _ _ _ (strIdxAppendL _ _ _ _ (by decide)))
        (objConflictIdx n 0 'О' (by decide)) (by decide)
    | cons u t =>
      cases t with
      | nil =>
        dsimp only
        exact huoDatesNoConflict db args cn pn o _ n
      | cons u2 rest =>
        dsimp only
        exact stringNeOfIdx _ _ 0 'Н' 'О'
          (strIdxAppendL _ _ _ _ (strIdxAppendL _ _ _ _ (strIdxAppendL _ _ _ _
            (strIdxAppendL _ _ _ _ (by decide)))))
          (objConflictIdx n 0 'О' (by decide)) (by decide)

theorem huoNewStageNoConflict (db : Store) (args : UpdateObjectArgs) (cn pn : String)
    (project : ProjectRow) (o : ObjectRow) (upd : ObjectUpdate) (n : String) :
    (huoNewStage db args cn pn project o upd).2 ≠
      "Объект с названием \"" ++ n ++ "\" уже существует в данной стадии" := by
  dsimp only [huoNewStage]
  cases hns : jsOptStr args.new_stage_name with
  | none => dsimp only; exact huoRespNoConflict db args cn pn o upd n
  | some nsn =>
    dsimp only
    cases hfs : findStageByNameExact db (jsTrim nsn) project.project_id with
    | none =>
      dsimp only
      exact stringNeOfIdx _ _ 0 'С' 'О'
        (strIdxAppendL _ _ _ _ (strIdxAppendL _ _ _ _ (strIdxAppendL _ _ _ _
          (strIdxAppendL _ _ _ _ (by decide)))))
        (objConflictIdx n 0 'О' (by decide)) (by decide)
    | some st =>
      dsimp only
      exact huoRespNoConflict db args cn pn o _ n

theorem huoDescriptionNoConflict (db : Store) (args : UpdateObjectArgs) (cn pn : String)
    (project : ProjectRow) (o : ObjectRow) (upd : ObjectUpdate) (n : String) :
    (huoDescription db args cn pn project o upd).2 ≠
      "Объект с названием \"" ++ n ++ "\" уже существует в данной стадии" := by
  dsimp only [huoDescription]
  exact huoNewStageNoConflict db args cn pn project o _ n

theorem huoNameSameNoConflict (db : Store) (args : UpdateObjectArgs) (cn pn : String)
    (project : ProjectRow) (o : ObjectRow) (nn : String)
    (hn : jsOptStr args.new_name = some nn) (he : jsTrim nn = cn) (n : String) :
    (huoName db args cn pn project o).2 ≠
      "Объект с названием \"" ++ n ++ "\" уже существует в данной стадии" := by
  dsimp only [huoName]
  rw [hn]
  dsimp only
  rw [he]
  simp only [beq_self_eq_true]
  rw [if_pos trivial]
  exact huoDescriptionNoConflict db args cn pn project o _ n

/-! The same chain for the section-update handler. -/

theorem husDatesNoConflict (db : Store) (args : UpdateSectionArgs) (cn pn : String)
    (sect : SectionRow) (upd : SectionUpdate) (n : String) :
    (husDates db args cn pn sect upd).2 ≠
      "Раздел с названием \"" ++ n ++ "\" уже существует в данном объекте" := by
  dsimp only [husDates]
  cases hps : parseOptDate "начала" args.start_date with
  | error m =>
    dsimp only
    obtain ⟨s, rfl⟩ := parseOptDateErrMsg _ _ _ hps
    exact stringNeOfIdx _ _ 0 'Н' 'Р'
      (strIdxAppendL _ _ _ _ (strIdxAppendL _ _ _ _ (strIdxAppendL _ _ _ _
        (strIdxAppendL _ _ _ _ (by decide)))))
      (secConflictIdx n 0 'Р' (by decide)) (by decide)
  | ok sd =>
    dsimp only
    cases hpe : parseOptDate "окончания" args.end_date with
    | error m =>
      dsimp only
      obtain ⟨s, rfl⟩ := parseOptDateErrMsg _ _ _ hpe
      exact stringNeOfIdx _ _ 0 'Н' 'Р'
        (strIdxAppendL _ _ _ _ (strIdxAppendL _ _ _ _ (strIdxAppendL _ _ _ _
          (strIdxAppendL _ _ _ _ (by decide)))))
        (secConflictIdx n 0 'Р' (by decide)) (by decide)
    | ok ed =>
      dsimp only
      split
      · dsimp only
        exact stringNeOfIdx _ _ 0 'Д' 'Р' (by decide) (secConflictIdx n 0 'Р' (by decide))
          (by decide)
      · split
        · dsimp only
          exact stringNeOfIdx _ _ 0 'О' 'Р' (strIdxAppendL _ _ _ _ (by decide))
            (secConflictIdx n 0 'Р' (by decide)) (by decide)
        · dsimp only
          exact stringNeOfIdx _ _ 7 '"' 'с'
            (strIdxAppendL _ _ _ _ (strIdxAppendL _ _ _ _ (strIdxAppendL _ _ _ _
              (strIdxAppendL _ _ _ _ (strIdxAppendL _ _ _ _ (by decide))))))
            (secConflictIdx n 7 'с' (by decide)) (by decide)

theorem husTypeNoConflict (db : Store) (args : UpdateSectionArgs) (cn pn : String)
    (sect : SectionRow) (upd : SectionUpdate) (n : String) :
    (husType db args cn pn sect upd).2 ≠
      "Раздел с названием \"" ++ n ++ "\" уже существует в данном объекте" := by
  dsimp only [husType]
  exact husDatesNoConflict db args cn pn sect _ n

theorem husRespNoConflict (db : Store) (args : UpdateSectionArgs) (cn pn : String)
    (sect : SectionRow) (upd : SectionUpdate) (n : String) :
    (husResp db args cn pn sect upd).2 ≠
      "Раздел с названием \"" ++ n ++ "\" уже существует в данном объекте" := by
  dsimp only [husResp]
  cases hrn : jsOptStr args.responsible_name with
  | none => dsimp only; exact husTypeNoConflict db args cn pn sect upd n
  | some rn =>
    dsimp only
    cases hus : searchUsersByQuery db (jsTrim rn) with
    | nil =>
      dsimp only
      exact stringNeOfIdx _ _ 0 'П' 'Р'
        (strIdxAppendL _ _ _ _ (strIdxAppendL _ _ _ _ (by decide)))
        (secConflictIdx n 0 'Р' (by decide)) (by decide)
    | cons u t =>
      cases t with
      | nil =>
        dsimp only
        exact husTypeNoConflict db args cn pn sect _ n
      | cons u2 rest =>
        dsimp only
        exact stringNeOfIdx _ _ 0 'Н' 'Р'
          (strIdxAppendL _ _ _ _ (strIdxAppendL _ _ _ _ (strIdxAppendL _ _ _ _
            (strIdxAppendL _ _ _ _ (by decide)))))
          (secConflictIdx n 0 'Р' (by decide)) (by decide)

theorem husDescriptionNoConflict (db : Store) (args : UpdateSectionArgs) (cn pn : String)
    (sect : SectionRow) (upd : SectionUpdate) (n : String) :
    (husDescription db args cn pn sect upd).2 ≠
      "Раздел с названием \"" ++ n ++ "\" уже существует в данном объекте" := by
  dsimp only [husDescription]
  exact husRespNoConflict db args cn pn sect _ n

theorem husNameSameNoConflict (db : Store) (args : UpdateSectionArgs) (cn pn : String)
    (sect : SectionRow) (nn : String)
    (hn : jsOptStr args.new_name = some nn) (he : jsTrim nn = cn) (n : String) :
    (husName db args cn pn sect).2 ≠
      "Раздел с названием \"" ++ n ++ "\" уже существует в данном объекте" := by
  dsimp only [husName]
  rw [hn]
  dsimp only
  rw [he]
  simp only [beq_self_eq_true]
  rw [if_pos trivial]
  exact husDescriptionNoConflict db args cn pn sect _ n

theorem handleUpdateObjectSameNameNoConflict (db : Store) (args : UpdateObjectArgs)
    (nn : String) (hn : jsOptStr args.new_name = some nn)
    (he : jsTrim nn = jsTrim args.current_name) :
    (handleUpdateObject db args).2 ≠
      "Объект с названием \"" ++ jsTrim nn ++ "\" уже существует в данной стадии" := by
  dsimp only [handleUpdateObject]
  cases hfp : findProjectByNameExact db (jsTrim args.project_name) with
  | none =>
    dsimp only
    exact stringNeOfIdx _ _ 0 'П' 'О'
      (strIdxAppendL _ _ _ _ (strIdxAppendL _ _ _ _ (by decide)))
      (objConflictIdx _ 0 'О' (by decide)) (by decide)
  | some project =>
    dsimp only
    cases hsn : jsOptStr args.stage_name with
    | some sn =>
      dsimp only
      cases hfs : findStageByNameExact db (jsTrim sn) project.project_id with
      | none =>
        dsimp only
        exact stringNeOfIdx _ _ 0 'С' 'О'
          (strIdxAppendL _ _ _ _ (strIdxAppendL _ _ _ _ (strIdxAppendL _ _ _ _
            (strIdxAppendL _ _ _ _ (by decide)))))
          (objConflictIdx _ 0 'О' (by decide)) (by decide)
      | some stage =>
        dsimp only
        cases hfo : findObjectByNameExact db (jsTrim args.current_name) project.project_id
            (some stage.stage_id) with
        | none =>
          dsimp only
          exact stringNeOfLast _ _ '"' 'и' (strLastAppendR _ _ _ (by decide))
            (objConflictLast _) (by decide)
        | some o =>
          dsimp only
          exact huoNameSameNoConflict db args (jsTrim args.current_name)
            (jsTrim args.project_name) project o nn hn he _
    | none =>
      dsimp only
      cases hfo : findObjectByNameExact db (jsTrim args.current_name) project.project_id
          none with
      | none =>
        dsimp only
        exact stringNeOfLast _ _ '"' 'и' (strLastAppendR _ _ _ (by decide))
          (objConflictLast _) (by decide)
      | some o =>
        dsimp only
        exact huoNameSameNoConflict db args (jsTrim args.current_name)
          (jsTrim args.project_name) project o nn hn he _

theorem handleUpdateSectionSameNameNoConflict (db : Store) (args : UpdateSectionArgs)
    (nn : String) (hn : jsOptStr args.new_name = some nn)
    (he : jsTrim nn = jsTrim args.current_name) :
    (handleUpdateSection db args).2 ≠
      "Раздел с названием \"" ++ jsTrim nn ++ "\" уже существует в данном объекте" := by
  dsimp only [handleUpdateSection]
  cases hfp : findProjectByNameExact db (jsTrim args.project_name) with
  | none =>
    dsimp only
    exact stringNeOfIdx _ _ 0 'П' 'Р'
      (strIdxAppendL _ _ _ _ (strIdxAppendL _ _ _ _ (by decide)))
      (secConflictIdx _ 0 'Р' (by decide)) (by decide)
  | some project =>
    dsimp only
    cases hon : jsOptStr args.object_name with
    | some onm =>
      dsimp only
      cases hfo : findObjectByNameExact db (jsTrim onm) project.project_id none with
      | none =>
        dsimp only
        exact stringNeOfIdx _ _ 0 'О' 'Р'
          (strIdxAppendL _ _ _ _ (strIdxAppendL _ _ _ _ (strIdxAppendL _ _ _ _
            (strIdxAppendL _ _ _ _ (by decide)))))
          (secConflictIdx _ 0 'Р' (by decide)) (by decide)
      | some object =>
        dsimp only
        cases hfsx : findSectionByNameExact db (jsTrim args.current_name) project.project_id
            (some object.object_id) with
        | none =>
          dsimp only
          exact stringNeOfLast _ _ '"' 'е' (strLastAppendR _ _ _ (by decide))
            (secConflictLast _) (by decide)
        | some sect =>
          dsimp only
          exact husNameSameNoConflict db args (jsTrim args.current_name)
            (jsTrim args.project_name) sect nn hn he _
    | none =>
      dsimp only
      cases hfsx : findSectionByNameExact db (jsTrim args.current_name) project.project_id
          none with
      | none =>
        dsimp only
        exact stringNeOfLast _ _ '"' 'е' (strLastAppendR _ _ _ (by decide))
          (secConflictLast _) (by decide)
      | some sect =>
        dsimp only
        exact husNameSameNoConflict db args (jsTrim args.current_name)
          (jsTrim args.project_name) sect nn hn he _

/-- C8: if `update_object` or `update_section` is called with a new name that,
after trimming, equals the (trimmed) current name, the handler never returns
the duplicate-name Conflict message: the code short-circuits the uniqueness
check when `newName === currentName`, and no other branch of either handler
produces that message. -/
theorem rename_to_same_name_never_conflicts :
    (∀ (db : Store) (args : UpdateObjectArgs) (nn : String),
      jsOptStr args.new_name = some nn → jsTrim nn = jsTrim args.current_name →
      (handleUpdateObject db args).2 ≠
        "Объект с названием \"" ++ jsTrim nn ++ "\" уже существует в данной стадии") ∧
    (∀ (db : Store) (args : UpdateSectionArgs) (nn : String),
      jsOptStr args.new_name = some nn → jsTrim nn = jsTrim args.current_name →
      (handleUpdateSection db args).2 ≠
        "Раздел с названием \"" ++ jsTrim nn ++ "\" уже существует в данном объекте") :=
  ⟨fun db args nn hn he => handleUpdateObjectSameNameNoConflict db args nn hn he,
   fun db args nn hn he => handleUpdateSectionSameNameNoConflict db args nn hn he⟩

/-! ### Claim C6: the date-range check uses the effective dates -/

def objectOD : ObjectRow :=
  { object_id := 23, object_name := "OD", object_stage_id := 10, object_project_id := 1,
    object_start_date := some "2024-05-10" }

def sectionND : SectionRow :=
  { section_id := 31, section_name := "ND", section_object_id := 20, section_project_id := 1,
    section_start_date := some "2024-05-10" }

/-- `storePSON` plus an object "OD" and a section "ND" that both carry a stored
start date of 2024-05-10. -/
def storePSODates : Store :=
  { projects := [projectP], stages := [stageS], objects := [objectO, objectOD],
    sections := [sectionN, sectionND] }

theorem huoDatesRangeReject (db : Store) (args : UpdateObjectArgs) (cn pn : String)
    (o : ObjectRow) (upd : ObjectUpdate) (sd ed : Option String)
    (hps : parseOptDate "начала" args.start_date = Except.ok sd)
    (hpe : parseOptDate "окончания" args.end_date = Except.ok ed)
    (hr : validateDateRange (jsOrOptStr (jsOrOptStr sd o.object_start_date) none)
        (jsOrOptStr (jsOrOptStr ed o.object_end_date) none) = false) :
    huoDates db args cn pn o upd = (db, "Дата начала не может быть больше даты окончания") := by
  dsimp only [huoDates]
  rw [hps]
  dsimp only
  rw [hpe]
  dsimp only
  rw [hr]
  rfl

theorem husDatesRangeReject (db : Store) (args : UpdateSectionArgs) (cn pn : String)
    (sect : SectionRow) (upd : SectionUpdate) (sd ed : Option String)
    (hps : parseOptDate "начала" args.start_date = Except.ok sd)
    (hpe : parseOptDate "окончания" args.end_date = Except.ok ed)
    (hr : validateDateRange (jsOrOptStr (jsOrOptStr sd sect.section_start_date) none)
        (jsOrOptStr (jsOrOptStr ed sect.section_end_date) none) = false) :
    husDates db args cn pn sect upd =
      (db, "Дата начала не может быть больше даты окончания") := by
  dsimp only [husDates]
  rw [hps]
  dsimp only
  rw [hpe]
  dsimp only
  rw [hr]
  rfl

/-- C6: for both update handlers, once the entity is resolved and no other
sub-update branches, the range check runs on the effective pair — the parsed
new date where present, else the stored one (`|| null`) — and an inverted
effective pair aborts the update with the range error, leaving the store
unchanged. -/
theorem update_rejects_inverted_effective_range :
    (∀ (db : Store) (args : UpdateObjectArgs) (p : ProjectRow) (o : ObjectRow)
        (sd ed : Option String),
      findProjectByNameExact db (jsTrim args.project_name) = some p →
      jsOptStr args.stage_name = none →
      findObjectByNameExact db (jsTrim args.current_name) p.project_id none = some o →
      jsOptStr args.new_name = none →
      jsOptStr args.new_stage_name = none →
      jsOptStr args.responsible_name = none →
      parseOptDate "начала" args.start_date = Except.ok sd →
      parseOptDate "окончания" args.end_date = Except.ok ed →
      validateDateRange (jsOrOptStr (jsOrOptStr sd o.object_start_date) none)
          (jsOrOptStr (jsOrOptStr ed o.object_end_date) none) = false →
      handleUpdateObject db args =
        (db, "Дата начала не может быть больше даты окончания")) ∧
    (∀ (db : Store) (args : UpdateSectionArgs) (p : ProjectRow) (sect : SectionRow)
        (sd ed : Option String),
      findProjectByNameExact db (jsTrim args.project_name) = some p →
      jsOptStr args.object_name = none →
      findSectionByNameExact db (jsTrim args.current_name) p.project_id none = some sect →
      jsOptStr args.new_name = none →
      jsOptStr args.responsible_name = none →
      parseOptDate "начала" args.start_date = Except.ok sd →
      parseOptDate "окончания" args.end_date = Except.ok ed →
      validateDateRange (jsOrOptStr (jsOrOptStr sd sect.section_start_date) none)
          (jsOrOptStr (jsOrOptStr ed sect.section_end_date) none) = false →
      handleUpdateSection db args =
        (db, "Дата начала не может быть больше даты окончания")) := by
  constructor
  · intro db args p o sd ed h1 h2 h3 h4 h5 h6 h7 h8 h9
    dsimp only [handleUpdateObject]
    rw [h1]
    dsimp only
    rw [h2]
    dsimp only
    rw [h3]
    dsimp only
    dsimp only [huoName]
    rw [h4]
    dsimp only
    dsimp only [huoDescription, huoNewStage]
    rw [h5]
    dsimp only
    dsimp only [huoResp]
    rw [h6]
    dsimp only
    exact huoDatesRangeReject db args _ _ o _ sd ed h7 h8 h9
  · intro db args p sect sd ed h1 h2 h3 h4 h6 h7 h8 h9
    dsimp only [handleUpdateSection]
    rw [h1]
    dsimp only
    rw [h2]
    dsimp only
    rw [h3]
    dsimp only
    dsimp only [husName]
    rw [h4]
    dsimp only
    dsimp only [husDescription, husResp]
    rw [h6]
    dsimp only
    dsimp only [husType]
    exact husDatesRangeReject db args _ _ sect _ sd ed h7 h8 h9

/-- Witness for C6: the update supplies only an end date (01.01.2024) while
the stored start date is 2024-05-10; both handlers abort with the range
error. -/
theorem update_rejects_inverted_effective_range_witness :
    (handleUpdateObject storePSODates
        { current_name := "OD", project_name := "P", end_date := some "01.01.2024" } =
      (storePSODates, "Дата начала не может быть больше даты окончания")) ∧
    (handleUpdateSection storePSODates
        { current_name := "ND", project_name := "P", end_date := some "01.01.2024" } =
      (storePSODates, "Дата начала не может быть больше даты окончания")) :=
  ⟨update_rejects_inverted_effective_range.1 storePSODates
      { current_name := "OD", project_name := "P", end_date := some "01.01.2024" }
      projectP objectOD none (some "2024-01-01")
      (by decide) rfl (by decide) rfl rfl rfl rfl rfl (by decide),
   update_rejects_inverted_effective_range.2 storePSODates
      { current_name := "ND", project_name := "P", end_date := some "01.01.2024" }
      projectP sectionND none (some "2024-01-01")
      (by decide) rfl (by decide) rfl rfl rfl rfl (by decide)⟩

/-- Witness for C8 at a concrete store and requests renaming object "O" to "O"
and section "N" to "N". -/
theorem rename_to_same_name_never_conflicts_witness :
    ((handleUpdateObject storePSON
        { current_name := "O", project_name := "P", new_name := some "O" }).2 ≠
      "Объект с названием \"" ++ jsTrim "O" ++ "\" уже существует в данной стадии") ∧
    ((handleUpdateSection storePSON
        { current_name := "N", project_name := "P", new_name := some "N" }).2 ≠
      "Раздел с названием \"" ++ jsTrim "N" ++ "\" уже существует в данном объекте") :=
  ⟨rename_to_same_name_never_conflicts.1 storePSON
      { current_name := "O", project_name := "P", new_name := some "O" } "O"
      (by decide) rfl,
   rename_to_same_name_never_conflicts.2 storePSON
      { current_name := "N", project_name := "P", new_name := some "N" } "N"
      (by decide) rfl⟩

end EnecaMcp
